import Mathlib

/-!
Shallow embedding of
`airbyte-ci/connectors/metadata_service/lib/metadata_service/gcs_upload.py`.

The module publishes connector metadata artifacts to an object store.  The
embedding models:
  * the local filesystem as a partial map from path strings to file contents,
  * the remote object store as a partial map from blob paths to the stored
    content hash of the object,
  * external collaborators (git lookup, HTTP HEAD probe, schema validation,
    environment credentials, yaml parsing) as explicit parameters bundled in
    a `Collab` structure,
  * raised Python exceptions as `Except.error` / `Option.none` results.

Every definition mirrors the corresponding Python function of the source file
and keeps its name.  Auxiliary collaborators that live outside the source file
(hashing, zipping, yaml serialization, GCS folder constants) are modelled from
the specification and marked as such in their doc comments.
-/

namespace GcsUpload

set_option maxRecDepth 100000

/-- Local filesystem model: absolute path to file content; `none` means the
file does not exist. -/
abbrev FS := String → Option String

/-- Remote object store model: blob path to the md5 hash stored with the
remote object; `none` means no object exists at that path. -/
abbrev Store := String → Option String

/-- Write a file to the local filesystem model. -/
def fsWrite (fs : FS) (p c : String) : FS := fun q => if q = p then some c else fs q

/-- Write an object (recorded by its content hash) to the store model. -/
def storeWrite (st : Store) (p h : String) : Store := fun q => if q = p then some h else st q

-- 🛣️ Path helpers (model of `pathlib.Path` operations used by the source).
-- They are implemented by structural recursion on the character list so that
-- concrete runs reduce inside the kernel.

/-- Model of `Path.name`: the final path component (the characters after the
last slash). -/
def pathName (p : String) : String :=
  ⟨(p.data.reverse.takeWhile (fun ch => ch ≠ '/')).reverse⟩

/-- Model of `Path.parent`: everything before the final path component; a
path without a slash has parent `.`, as in `pathlib`. -/
def pathParent (p : String) : String :=
  match p.data.reverse.dropWhile (fun ch => ch ≠ '/') with
  | [] => "."
  | _ :: tail => ⟨tail.reverse⟩

/-- Stem of a file name: the characters before the extension dot; a name with
no dot, or only a leading dot, has no extension, as in `pathlib`. -/
def stemChars (name : List Char) : List Char :=
  match name.reverse.dropWhile (fun ch => ch ≠ '.') with
  | [] => name
  | _ :: tail => if tail.isEmpty then name else tail.reverse

/-- Model of `Path.with_suffix`: replace the extension of the final path
component, or append the extension when the final component has none. -/
def withSuffix (p ext : String) : String :=
  let r := p.data.reverse
  let name := (r.takeWhile (fun ch => ch ≠ '/')).reverse
  let dirR := r.dropWhile (fun ch => ch ≠ '/')
  ⟨dirR.reverse ++ (stemChars name ++ ext.data)⟩

/-- Boolean string-prefix test, by structural recursion on the character
lists. -/
def strStartsWith (s pre : String) : Bool := pre.data.isPrefixOf s.data

/-- Drop the first `n` characters of a string. -/
def strDrop (s : String) (n : Nat) : String := ⟨s.data.drop n⟩

/-- Truthiness of an optional string, as Python evaluates `if x:` for a value
of type `str | None` (or `str | Literal[False]`): `None`/`False` and the empty
string are falsy. -/
def truthy : Option String → Bool
  | none => false
  | some s => s ≠ ""

-- 🔤 Constants imported by the source from `metadata_service.constants`.

/-- Modelled from the spec: remote layout root `{metadataRoot}`. -/
def METADATA_FOLDER : String := "metadata"

/-- Modelled from the spec: the `latest` folder of the remote layout. -/
def LATEST_GCS_FOLDER_NAME : String := "latest"

/-- Modelled from the spec: the `release_candidate` folder of the remote
layout. -/
def RELEASE_CANDIDATE_GCS_FOLDER_NAME : String := "release_candidate"

/-- Modelled from the spec: file name of the icon artifact. -/
def ICON_FILE_NAME : String := "icon.svg"

/-- Modelled from the spec: file name of the manifest artifact. -/
def MANIFEST_FILE_NAME : String := "manifest.yaml"

/-- Modelled from the spec: file name of the packaged-components source
file. -/
def COMPONENTS_PY_FILE_NAME : String := "components.py"

-- 🧩 Data model (mirrors the loosely-typed metadata dictionary with typed
-- structures; `Option` fields model possibly-absent dictionary keys).

/-- Model of `GitInfo`: provenance of the last commit touching the metadata
file.  The timestamp is kept abstract as a string. -/
structure GitInfoModel where
  commit_sha : String
  commit_timestamp : String
  commit_author : String
  commit_author_email : String
deriving DecidableEq, Repr

/-- Model of the `data.generated.pythonComponents` sub-dictionary. -/
structure PythonComponentsInfo where
  required : Option Bool := none
  sha256 : Option String := none
deriving DecidableEq, Repr

/-- Model of the `data.generated` sub-dictionary. -/
structure GeneratedFields where
  git : Option GitInfoModel := none
  pythonComponents : Option PythonComponentsInfo := none
  sbomUrl : Option String := none
deriving DecidableEq, Repr

/-- Model of one entry of `data.registryOverrides`: only the
`dockerImageTag` key is touched by the source. -/
structure RegistryOverride where
  dockerImageTag : Option String := none
deriving DecidableEq, Repr

/-- Model of the `data.releases` sub-object, of which the source reads
`isReleaseCandidate` via `getattr` with default `False`. -/
structure ReleasesInfo where
  isReleaseCandidate : Bool := false
deriving DecidableEq, Repr

/-- Model of the `data` section of the metadata document. -/
structure MetadataData where
  dockerRepository : Option String := none
  dockerImageTag : Option String := none
  documentationUrl : String := ""
  registryOverrides : List (String × RegistryOverride) := []
  releases : Option ReleasesInfo := none
  generated : Option GeneratedFields := none
deriving DecidableEq, Repr

/-- Model of the loaded metadata document (`ConnectorMetadataDefinitionV0`
and the raw dictionary alike). -/
structure Metadata where
  data : MetadataData
deriving DecidableEq, Repr

/-- Model of `ValidatorOptions`: the fields the source reads. -/
structure ValidatorOptions where
  docs_path : String
  prerelease_tag : Option String := none
deriving DecidableEq, Repr

-- 🧩 Result types of the source.

/-- Per (artifact x alias) upload outcome, mirroring `UploadedFile`. -/
structure UploadedFile where
  id : String
  uploaded : Bool
  blob_id : Option String
deriving DecidableEq, Repr

/-- Aggregate publish report, mirroring `MetadataUploadInfo`. -/
structure MetadataUploadInfo where
  metadata_uploaded : Bool
  metadata_file_path : String
  uploaded_files : List UploadedFile
deriving DecidableEq, Repr

/-- Result of the conditional uploader, mirroring `MaybeUpload`. -/
structure MaybeUpload where
  uploaded : Bool
  blob_id : String
deriving DecidableEq, Repr

/-- Paths produced by `maybe_create_components_zip`, mirroring
`ManifestOnlyFilePaths`. -/
structure ManifestOnlyFilePaths where
  zip_file_path : String
  sha256_file_path : String
  sha256 : Option String
  manifest_file_path : String
deriving DecidableEq, Repr

-- 🧮 External hash / zip / serialization collaborators.

/-- Modelled from the spec: `compute_gcs_md5` of
`metadata_service.helpers.files` computes a content hash comparable with the
hash the store reports; modelled as a collision-free function of the file
content. -/
def compute_gcs_md5 (content : String) : String := "md5:" ++ content

/-- Modelled from the spec: sha256 content hash of
`metadata_service.helpers.files`, modelled as a collision-free function of the
content. -/
def compute_sha256 (content : String) : String := "sha256:" ++ content

/-- Modelled from the spec: the byte content of the zip archive packaging the
given (path, content) pairs. -/
def zipContentOf (files : List (String × String)) : String :=
  String.intercalate ";" (files.map fun f => f.1 ++ "=" ++ f.2)

/-- Modelled from the spec: `yaml.dump` serialization of the metadata
document. -/
def serializeMetadata (m : Metadata) : String :=
  let serOptS : Option String → String := fun o => o.getD "~"
  let serOptB : Option Bool → String := fun o => (o.map (fun b => if b then "true" else "false")).getD "~"
  let serGit : Option GitInfoModel → String := fun o =>
    match o with
    | none => "~"
    | some g =>
      "sha=" ++ g.commit_sha ++ ",ts=" ++ g.commit_timestamp ++ ",author=" ++
        g.commit_author ++ ",email=" ++ g.commit_author_email
  let serPy : Option PythonComponentsInfo → String := fun o =>
    match o with
    | none => "~"
    | some p => "required=" ++ serOptB p.required ++ ",sha256=" ++ serOptS p.sha256
  let serGen : Option GeneratedFields → String := fun o =>
    match o with
    | none => "~"
    | some g =>
      "git=" ++ serGit g.git ++ "|pythonComponents=" ++ serPy g.pythonComponents ++
        "|sbomUrl=" ++ serOptS g.sbomUrl
  let serOverride : String × RegistryOverride → String := fun kv =>
    kv.1 ++ ":dockerImageTag=" ++ serOptS kv.2.dockerImageTag
  "dockerRepository: " ++ serOptS m.data.dockerRepository ++ "\n" ++
    "dockerImageTag: " ++ serOptS m.data.dockerImageTag ++ "\n" ++
    "documentationUrl: " ++ m.data.documentationUrl ++ "\n" ++
    "registryOverrides: [" ++ String.intercalate "," (m.data.registryOverrides.map serOverride) ++ "]\n" ++
    "isReleaseCandidate: " ++ serOptB ((m.data.releases).map (fun r => r.isReleaseCandidate)) ++ "\n" ++
    "generated: " ++ serGen m.data.generated ++ "\n"

-- 🛣️ FILES AND PATHS

/-- Base of documentation URLs that resolve onto the local docs tree;
mirrors the regular expression of `get_doc_local_file_path`. -/
def DOCS_URL_BASE : String := "https://docs.airbyte.com/"

/-- Resolution of the local doc file from a documentation URL; factored out of
`get_doc_local_file_path` so hypotheses can be stated on the URL alone.
Returns `none` exactly when the regular expression
`^https://docs\.airbyte\.com/(.+)$` does not match. -/
def docPathFromUrl (url docs_path : String) (inapp : Bool) : Option String :=
  if strStartsWith url DOCS_URL_BASE ∧ DOCS_URL_BASE.length < url.length then
    let rest := strDrop url DOCS_URL_BASE.length
    let extension := if inapp then ".inapp.md" else ".md"
    some (withSuffix (docs_path ++ "/" ++ rest) extension)
  else
    none

/-- Model of `get_doc_local_file_path`; the Python function returns `None`
when the documentation URL does not match the docs prefix. -/
def get_doc_local_file_path (metadata : Metadata) (docs_path : String) (inapp : Bool) :
    Option String :=
  docPathFromUrl metadata.data.documentationUrl docs_path inapp

/-- Model of `maybe_create_components_zip`.  `tempfile.NamedTemporaryFile`
with `delete=False` creates both temporary files on disk unconditionally, so
the returned zip and sha256 paths exist (empty) even when `components.py` is
absent; when it is present, the zip content and its sha256 are written.  The
two fresh temporary paths are supplied as arguments. -/
def maybe_create_components_zip (fs : FS) (zipTmp sha256Tmp : String)
    (working_directory : String) : ManifestOnlyFilePaths × FS :=
  let yaml_manifest_file_path := working_directory ++ "/" ++ MANIFEST_FILE_NAME
  let components_py_file_path := working_directory ++ "/" ++ COMPONENTS_PY_FILE_NAME
  let fs1 := fsWrite (fsWrite fs zipTmp "") sha256Tmp ""
  match fs components_py_file_path with
  | some _ =>
      let files_to_zip := [components_py_file_path, yaml_manifest_file_path]
      let zipContent := zipContentOf (files_to_zip.map fun p => (p, (fs p).getD ""))
      let components_zip_sha256 := compute_sha256 zipContent
      let fs2 := fsWrite (fsWrite fs zipTmp zipContent) sha256Tmp components_zip_sha256
      (⟨zipTmp, sha256Tmp, some components_zip_sha256, yaml_manifest_file_path⟩, fs2)
  | none =>
      (⟨zipTmp, sha256Tmp, none, yaml_manifest_file_path⟩, fs1)

-- 🛠️ HELPERS

/-- Model of `_any_uploaded`: scans the outcome records and returns true as
soon as one record's identity key is among `keys`; note that the source never
inspects the record's `uploaded` flag. -/
def _any_uploaded (uploaded_files : List UploadedFile) (keys : List String) : Bool :=
  uploaded_files.any fun uploaded_file => keys.contains uploaded_file.id

-- 🔧 METADATA MODIFICATIONS

/-- Model of `_apply_prerelease_overrides`: no prerelease tag means identity;
otherwise the top-level `dockerImageTag` is overwritten and each registry
override's `dockerImageTag` is overwritten where the key is present. -/
def _apply_prerelease_overrides (metadata_dict : Metadata)
    (validator_opts : ValidatorOptions) : Metadata :=
  match validator_opts.prerelease_tag with
  | none => metadata_dict
  | some tag =>
      { data := { metadata_dict.data with
          dockerImageTag := some tag,
          registryOverrides := metadata_dict.data.registryOverrides.map fun kv =>
            (kv.1,
             if kv.2.dockerImageTag.isSome then { kv.2 with dockerImageTag := some tag }
             else kv.2) } }

/-- Model of `_apply_author_info_to_metadata_file`: the git lookup result is
supplied by the git collaborator; when present it is stored under
`data.generated.git` (`pydash.set_` creates the `generated` object when
missing). -/
def _apply_author_info_to_metadata_file (metadata_dict : Metadata)
    (git_info : Option GitInfoModel) : Metadata :=
  match git_info with
  | none => metadata_dict
  | some gi =>
      let g := (metadata_dict.data.generated).getD {}
      { data := { metadata_dict.data with generated := some { g with git := some gi } } }

/-- Model of `_apply_python_components_sha_to_metadata_file`: a no-op unless a
(truthy) sha256 is provided, in which case
`data.generated.pythonComponents.required` and `.sha256` are set. -/
def _apply_python_components_sha_to_metadata_file (metadata_dict : Metadata)
    (python_components_sha256 : Option String) : Metadata :=
  if truthy python_components_sha256 then
    let g := (metadata_dict.data.generated).getD {}
    let pc := (g.pythonComponents).getD {}
    let pc' : PythonComponentsInfo :=
      { pc with required := some true, sha256 := python_components_sha256 }
    { data := { metadata_dict.data with
        generated := some { g with pythonComponents := some pc' } } }
  else metadata_dict

/-- Deterministic SBOM URL constructed by `_apply_sbom_url_to_metadata_file`. -/
def sbomUrlFor (repo tag : String) : String :=
  "https://connectors.airbyte.com/files/sbom/" ++ repo ++ "/" ++ tag ++ ".spdx.json"

/-- Effect of `pydash.set_` on the path `data.generated.sbomUrl`: creates the
`generated` object when missing and stores the URL. -/
def setGeneratedSbomUrl (m : Metadata) (url : String) : Metadata :=
  let g := (m.data.generated).getD {}
  { data := { m.data with generated := some { g with sbomUrl := some url } } }

/-- Model of `_apply_sbom_url_to_metadata_file`.  The HTTP collaborator
`http url` returns `some ok` for a response (with its `ok` flag) and `none`
when `requests.head` raises a network error.  In the source, only the
dictionary accesses building the URL sit inside the `try/except KeyError`;
the `requests.head` call is outside, so a raised network error propagates —
modelled by the `none` result. -/
def _apply_sbom_url_to_metadata_file (http : String → Option Bool)
    (metadata_dict : Metadata) : Option Metadata :=
  match metadata_dict.data.dockerRepository, metadata_dict.data.dockerImageTag with
  | some repo, some tag =>
      let sbom_url := sbomUrlFor repo tag
      match http sbom_url with
      | none => none
      | some respOk =>
          if respOk then some (setGeneratedSbomUrl metadata_dict sbom_url)
          else some metadata_dict
  | _, _ => some metadata_dict

-- 🚀 UPLOAD

/-- Remote object identifier returned for a blob, modelling
`google.cloud.storage.Blob.id`. -/
def blobId (bucket blob_path : String) : String := bucket ++ "/" ++ blob_path

/-- Model of `upload_file_if_changed`: compare the md5 hash of the local file
with the hash stored for the remote blob (absent remote means `None`); upload
only when they differ.  The third result component is the list of blob paths
written by this call.  A missing local file models the `FileNotFoundError`
the Python file read would raise. -/
def upload_file_if_changed (fs : FS) (store : Store) (bucket : String)
    (blob_path : String) (local_file_path : String) (disable_cache : Bool) :
    Except String (MaybeUpload × Store × List String) :=
  match fs local_file_path with
  | none => .error ("FileNotFoundError: " ++ local_file_path)
  | some content =>
      let local_file_md5_hash := compute_gcs_md5 content
      let remote_blob_md5_hash := store blob_path
      if remote_blob_md5_hash ≠ some local_file_md5_hash then
        .ok (⟨true, blobId bucket blob_path⟩,
             storeWrite store blob_path local_file_md5_hash, [blob_path])
      else
        .ok (⟨false, blobId bucket blob_path⟩, store, [])

/-- Model of `_file_upload`: publish one local file to up to two remote
aliases.  `upload_as_version` models the `str | Literal[False]` parameter
(with Python truthiness); outcomes for destinations that were not attempted
keep the default `uploaded=False, blob_id=None`. -/
def _file_upload (fs : FS) (store : Store) (bucket : String)
    (gcp_connector_dir : String) (file_key : String) (local_path : String)
    (upload_as_version : Option String) (upload_as_latest : Bool)
    (skip_if_not_exists : Bool := true) (disable_cache : Bool := false) :
    Except String ((UploadedFile × UploadedFile) × Store × List String) :=
  let latest_file_key := "latest_" ++ file_key
  let versioned_file_key := "versioned_" ++ file_key
  let versioned0 : UploadedFile := ⟨versioned_file_key, false, none⟩
  let latest0 : UploadedFile := ⟨latest_file_key, false, none⟩
  match fs local_path with
  | none =>
      if skip_if_not_exists then
        .ok ((versioned0, latest0), store, [])
      else
        .error ("Expected to find file at " ++ local_path ++ ", but none was found.")
  | some _ =>
      let step1 : Except String (UploadedFile × Store × List String) :=
        if truthy upload_as_version then
          let remote_upload_path := gcp_connector_dir ++ "/" ++ upload_as_version.getD ""
          match upload_file_if_changed fs store bucket
              (remote_upload_path ++ "/" ++ pathName local_path) local_path disable_cache with
          | .error e => .error e
          | .ok (r, store1, w1) =>
              .ok (⟨versioned_file_key, r.uploaded, some r.blob_id⟩, store1, w1)
        else .ok (versioned0, store, [])
      match step1 with
      | .error e => .error e
      | .ok (versioned_file_info, store1, w1) =>
          let step2 : Except String (UploadedFile × Store × List String) :=
            if upload_as_latest then
              let remote_upload_path := gcp_connector_dir ++ "/" ++ LATEST_GCS_FOLDER_NAME
              match upload_file_if_changed fs store1 bucket
                  (remote_upload_path ++ "/" ++ pathName local_path) local_path disable_cache with
              | .error e => .error e
              | .ok (r, store2, w2) =>
                  .ok (⟨latest_file_key, r.uploaded, some r.blob_id⟩, store2, w2)
            else .ok (latest0, store1, [])
          match step2 with
          | .error e => .error e
          | .ok (latest_file_info, store2, w2) =>
              .ok ((versioned_file_info, latest_file_info), store2, w1 ++ w2)

-- 💎 Main Logic

/-- External collaborators and ambient state of one orchestrator run.
`parse` is the result of `yaml.safe_load` on the original metadata file
(`none` models invalid yaml).  `gitInfo` is the result of
`_get_git_info_for_file` (`none` models the two non-fatal skip conditions).
`http` is `requests.head` as in `_apply_sbom_url_to_metadata_file`.
`validateOk` is the external schema validation of `validate_and_load`.
`gcs_creds` is the `GCS_CREDENTIALS` environment variable.  The three `Tmp`
paths are the fresh temporary file names handed out by
`tempfile.NamedTemporaryFile`. -/
structure Collab where
  fs : FS
  store : Store
  parse : Option Metadata
  gitInfo : Option GitInfoModel
  http : String → Option Bool
  validateOk : Metadata → Bool
  gcs_creds : Option String
  zipTmpPath : String
  sha256TmpPath : String
  metadataTmpPath : String

/-- Model of `_apply_modifications_to_metadata_file` minus the final write to
the temporary file (which the orchestrator model performs itself): the fixed
mutation pipeline.  Returns `none` when the SBOM probe raises. -/
def _apply_modifications_pipeline (c : Collab) (metadata0 : Metadata)
    (validator_opts : ValidatorOptions) (components_zip_sha256 : Option String) :
    Option Metadata :=
  let m1 := _apply_prerelease_overrides metadata0 validator_opts
  let m2 := _apply_author_info_to_metadata_file m1 c.gitInfo
  let m3 := _apply_python_components_sha_to_metadata_file m2 components_zip_sha256
  _apply_sbom_url_to_metadata_file c.http m3

/-- Model of `upload_metadata_to_gcs`, the publish orchestrator.  The result
carries the publish report, the final store state, and the ordered list of
blob paths written.  `Except.error` models every raised exception: invalid
yaml, a raised SBOM probe, failed validation, missing credentials, a missing
required artifact, and the `AttributeError` raised when
`get_doc_local_file_path` returns `None` and `_file_upload` calls
`local_path.exists()` on it. -/
def upload_metadata_to_gcs (c : Collab) (bucket_name : String)
    (metadata_file_path : String) (validator_opts : ValidatorOptions) :
    Except String (MetadataUploadInfo × Store × List String) :=
  let working_directory := pathParent metadata_file_path
  let createRes := maybe_create_components_zip c.fs c.zipTmpPath c.sha256TmpPath working_directory
  let manifest_only_file_info := createRes.1
  let fs1 := createRes.2
  match c.parse with
  | none => .error ("Validation error: Metadata file " ++ metadata_file_path ++ " is invalid yaml.")
  | some metadata0 =>
    match _apply_modifications_pipeline c metadata0 validator_opts
        manifest_only_file_info.sha256 with
    | none => .error "requests.exceptions.ConnectionError"
    | some m4 =>
      -- the source rebinds `metadata_file_path` to the fresh temporary file
      let metadata_file_path := c.metadataTmpPath
      let fs2 := fsWrite fs1 metadata_file_path (serializeMetadata m4)
      if c.validateOk m4 = false then
        .error ("Metadata file " ++ metadata_file_path ++ " is invalid for uploading")
      else
        let metadata := m4
        let is_pre_release := validator_opts.prerelease_tag.isSome
        let is_release_candidate :=
          match metadata.data.releases with
          | none => false
          | some r => r.isReleaseCandidate
        let should_upload_release_candidate := is_release_candidate && !is_pre_release
        let should_upload_latest := !is_release_candidate && !is_pre_release
        match c.gcs_creds with
        | none => .error "Please set the GCS_CREDENTIALS env var."
        | some creds =>
          if creds = "" then .error "Please set the GCS_CREDENTIALS env var." else
          let docs_path := validator_opts.docs_path
          let gcp_connector_dir := METADATA_FOLDER ++ "/" ++ (metadata.data.dockerRepository).getD ""
          let upload_as_version : Option String :=
            if is_pre_release = false then metadata.data.dockerImageTag
            else validator_opts.prerelease_tag
          match _file_upload fs2 c.store bucket_name gcp_connector_dir "metadata"
              metadata_file_path upload_as_version should_upload_latest true true with
          | .error e => .error e
          | .ok (metadata_files_uploaded, st1, w1) =>
            let uploaded_files := [metadata_files_uploaded.1, metadata_files_uploaded.2]
            let rcStep : Except String (List UploadedFile × Store × List String) :=
              if should_upload_release_candidate then
                match _file_upload fs2 st1 bucket_name gcp_connector_dir "release_candidate"
                    metadata_file_path (some RELEASE_CANDIDATE_GCS_FOLDER_NAME) false true true with
                | .error e => .error e
                | .ok (rc_files, st, w) => .ok ([rc_files.1, rc_files.2], st, w)
              else .ok ([], st1, [])
            match rcStep with
            | .error e => .error e
            | .ok (rc_list, st2, w2) =>
              match _file_upload fs2 st2 bucket_name gcp_connector_dir "icon"
                  (pathParent metadata_file_path ++ "/" ++ ICON_FILE_NAME) none
                  should_upload_latest true false with
              | .error e => .error e
              | .ok (icon_files_uploaded, st3, w3) =>
                match get_doc_local_file_path metadata docs_path false,
                    get_doc_local_file_path metadata docs_path true with
                | none, _ =>
                    .error "AttributeError: NoneType object has no attribute exists"
                | some _, none =>
                    .error "AttributeError: NoneType object has no attribute exists"
                | some local_doc_path, some local_inapp_doc_path =>
                  match _file_upload fs2 st3 bucket_name gcp_connector_dir "doc"
                      local_doc_path upload_as_version should_upload_latest true false with
                  | .error e => .error e
                  | .ok (doc_files_uploaded, st4, w4) =>
                    match _file_upload fs2 st4 bucket_name gcp_connector_dir "inapp_doc"
                        local_inapp_doc_path upload_as_version should_upload_latest true false with
                    | .error e => .error e
                    | .ok (inapp_doc_files_uploaded, st5, w5) =>
                      match _file_upload fs2 st5 bucket_name gcp_connector_dir "manifest"
                          manifest_only_file_info.manifest_file_path upload_as_version
                          should_upload_latest true false with
                      | .error e => .error e
                      | .ok (manifest_files_uploaded, st6, w6) =>
                        match _file_upload fs2 st6 bucket_name gcp_connector_dir
                            "components_zip_sha256" manifest_only_file_info.sha256_file_path
                            upload_as_version should_upload_latest true false with
                        | .error e => .error e
                        | .ok (sha_files_uploaded, st7, w7) =>
                          match _file_upload fs2 st7 bucket_name gcp_connector_dir
                              "components_zip" manifest_only_file_info.zip_file_path
                              upload_as_version should_upload_latest true false with
                          | .error e => .error e
                          | .ok (zip_files_uploaded, st8, w8) =>
                            let all_uploaded_files :=
                              uploaded_files ++ rc_list ++
                                [icon_files_uploaded.1, icon_files_uploaded.2] ++
                                [doc_files_uploaded.1, doc_files_uploaded.2] ++
                                [inapp_doc_files_uploaded.1, inapp_doc_files_uploaded.2] ++
                                [manifest_files_uploaded.1, manifest_files_uploaded.2] ++
                                [sha_files_uploaded.1, sha_files_uploaded.2] ++
                                [zip_files_uploaded.1, zip_files_uploaded.2]
                            .ok (⟨_any_uploaded all_uploaded_files
                                    ["latest_metadata", "version_metadata",
                                      "version_release_candidate"],
                                  metadata_file_path, all_uploaded_files⟩,
                                 st8, w1 ++ w2 ++ w3 ++ w4 ++ w5 ++ w6 ++ w7 ++ w8)

/-- Report component of an orchestrator run, with the store state stripped so
results can be compared decidably. -/
def runInfo (c : Collab) (bucket_name metadata_file_path : String)
    (validator_opts : ValidatorOptions) : Except String MetadataUploadInfo :=
  (upload_metadata_to_gcs c bucket_name metadata_file_path validator_opts).map fun r => r.1

/-- Ordered write log of an orchestrator run. -/
def runWrites (c : Collab) (bucket_name metadata_file_path : String)
    (validator_opts : ValidatorOptions) : Except String (List String) :=
  (upload_metadata_to_gcs c bucket_name metadata_file_path validator_opts).map fun r => r.2.2

-- 🧪 Proof-side characterization functions and concrete fixtures.

/-- One conditional-upload step as a pure function of the store, used to
characterize `upload_file_if_changed` on an existing local file. -/
def condStep (st : Store) (bucket blob_path hash : String) :
    MaybeUpload × Store × List String :=
  if st blob_path ≠ some hash then
    (⟨true, blobId bucket blob_path⟩, storeWrite st blob_path hash, [blob_path])
  else
    (⟨false, blobId bucket blob_path⟩, st, [])

/-- Versioned remote path targeted by `_file_upload`. -/
def mkPath (gcp_connector_dir folder filename : String) : String :=
  gcp_connector_dir ++ "/" ++ folder ++ "/" ++ filename

/-- Characterization of `_file_upload` on an existing local file whose md5
hash is `hash`, as a pure function. -/
def fileUploadModel (st : Store) (bucket gcp_connector_dir file_key local_path : String)
    (upload_as_version : Option String) (upload_as_latest : Bool) (hash : String) :
    (UploadedFile × UploadedFile) × Store × List String :=
  let vk := "versioned_" ++ file_key
  let lk := "latest_" ++ file_key
  let p1 := mkPath gcp_connector_dir (upload_as_version.getD "") (pathName local_path)
  let p2 := mkPath gcp_connector_dir LATEST_GCS_FOLDER_NAME (pathName local_path)
  let s1 :=
    if truthy upload_as_version then
      let r := condStep st bucket p1 hash
      ((⟨vk, r.1.uploaded, some r.1.blob_id⟩ : UploadedFile), r.2.1, r.2.2)
    else ((⟨vk, false, none⟩ : UploadedFile), st, ([] : List String))
  let s2 :=
    if upload_as_latest then
      let r := condStep s1.2.1 bucket p2 hash
      ((⟨lk, r.1.uploaded, some r.1.blob_id⟩ : UploadedFile), r.2.1, r.2.2)
    else ((⟨lk, false, none⟩ : UploadedFile), s1.2.1, ([] : List String))
  ((s1.1, s2.1), s2.2.1, s1.2.2 ++ s2.2.2)

/-- Characterization of one orchestrator `_file_upload` invocation (which
always passes `skip_if_not_exists=True`) as a pure function: a missing local
file yields the two default outcomes, an existing one the conditional-upload
results. -/
def stepOf (fs : FS) (st : Store) (bucket gcp_connector_dir file_key local_path : String)
    (upload_as_version : Option String) (upload_as_latest : Bool) :
    (UploadedFile × UploadedFile) × Store × List String :=
  match fs local_path with
  | none =>
      ((⟨"versioned_" ++ file_key, false, none⟩, ⟨"latest_" ++ file_key, false, none⟩),
        st, [])
  | some cont =>
      fileUploadModel st bucket gcp_connector_dir file_key local_path
        upload_as_version upload_as_latest (compute_gcs_md5 cont)

/-- The document produced by the mutation pipeline of an orchestrator run
(`none` when the yaml parse fails or the SBOM probe raises). -/
def mutatedDoc (c : Collab) (metadata_file_path : String)
    (validator_opts : ValidatorOptions) : Option Metadata :=
  match c.parse with
  | none => none
  | some m0 =>
      _apply_modifications_pipeline c m0 validator_opts
        (maybe_create_components_zip c.fs c.zipTmpPath c.sha256TmpPath
          (pathParent metadata_file_path)).1.sha256

/-- Files-and-paths record produced by the zip-creation phase of a run. -/
def runMofi (c : Collab) (metadata_file_path : String) : ManifestOnlyFilePaths :=
  (maybe_create_components_zip c.fs c.zipTmpPath c.sha256TmpPath
    (pathParent metadata_file_path)).1

/-- Local filesystem as the upload steps of a run see it: after the zip
creation phase and the write of the mutated document to its temporary
file. -/
def runFS2 (c : Collab) (metadata_file_path : String) (m4 : Metadata) : FS :=
  fsWrite
    (maybe_create_components_zip c.fs c.zipTmpPath c.sha256TmpPath
      (pathParent metadata_file_path)).2
    c.metadataTmpPath (serializeMetadata m4)

/-- The `is_release_candidate` flag derived (via `getattr` with default
`False`) from the validated document. -/
def isRC (m4 : Metadata) : Bool :=
  match m4.data.releases with
  | none => false
  | some r => r.isReleaseCandidate

/-- The `should_upload_release_candidate` flag of a run. -/
def runShouldRC (validator_opts : ValidatorOptions) (m4 : Metadata) : Bool :=
  isRC m4 && !validator_opts.prerelease_tag.isSome

/-- The `should_upload_latest` flag of a run. -/
def runShouldLatest (validator_opts : ValidatorOptions) (m4 : Metadata) : Bool :=
  !isRC m4 && !validator_opts.prerelease_tag.isSome

/-- The `gcp_connector_dir` of a run. -/
def runDir (m4 : Metadata) : String :=
  METADATA_FOLDER ++ "/" ++ (m4.data.dockerRepository).getD ""

/-- The `upload_as_version` alias of a run. -/
def runUav (validator_opts : ValidatorOptions) (m4 : Metadata) : Option String :=
  if validator_opts.prerelease_tag.isSome = false then m4.data.dockerImageTag
  else validator_opts.prerelease_tag

/-- Local path at which the orchestrator looks for the icon: the source looks
next to the rebound (temporary) metadata file path. -/
def iconLocalPath (c : Collab) : String :=
  pathParent c.metadataTmpPath ++ "/" ++ ICON_FILE_NAME

/-- The metadata upload step of a run. -/
def runStep1 (c : Collab) (bucket_name metadata_file_path : String)
    (validator_opts : ValidatorOptions) (m4 : Metadata) :
    (UploadedFile × UploadedFile) × Store × List String :=
  stepOf (runFS2 c metadata_file_path m4) c.store bucket_name (runDir m4) "metadata"
    c.metadataTmpPath (runUav validator_opts m4) (runShouldLatest validator_opts m4)

/-- The (conditional) release-candidate upload step of a run. -/
def runRC (c : Collab) (bucket_name metadata_file_path : String)
    (validator_opts : ValidatorOptions) (m4 : Metadata) :
    List UploadedFile × Store × List String :=
  if runShouldRC validator_opts m4 then
    let r := stepOf (runFS2 c metadata_file_path m4)
      (runStep1 c bucket_name metadata_file_path validator_opts m4).2.1 bucket_name
      (runDir m4) "release_candidate" c.metadataTmpPath
      (some RELEASE_CANDIDATE_GCS_FOLDER_NAME) false
    ([r.1.1, r.1.2], r.2.1, r.2.2)
  else ([], (runStep1 c bucket_name metadata_file_path validator_opts m4).2.1, [])

/-- The icon upload step of a run. -/
def runStep3 (c : Collab) (bucket_name metadata_file_path : String)
    (validator_opts : ValidatorOptions) (m4 : Metadata) :
    (UploadedFile × UploadedFile) × Store × List String :=
  stepOf (runFS2 c metadata_file_path m4)
    (runRC c bucket_name metadata_file_path validator_opts m4).2.1 bucket_name
    (runDir m4) "icon" (iconLocalPath c) none (runShouldLatest validator_opts m4)

/-- The doc upload step of a run. -/
def runStep4 (c : Collab) (bucket_name metadata_file_path : String)
    (validator_opts : ValidatorOptions) (m4 : Metadata) :
    (UploadedFile × UploadedFile) × Store × List String :=
  stepOf (runFS2 c metadata_file_path m4)
    (runStep3 c bucket_name metadata_file_path validator_opts m4).2.1 bucket_name
    (runDir m4) "doc" ((get_doc_local_file_path m4 validator_opts.docs_path false).getD "")
    (runUav validator_opts m4) (runShouldLatest validator_opts m4)

/-- The in-app doc upload step of a run. -/
def runStep5 (c : Collab) (bucket_name metadata_file_path : String)
    (validator_opts : ValidatorOptions) (m4 : Metadata) :
    (UploadedFile × UploadedFile) × Store × List String :=
  stepOf (runFS2 c metadata_file_path m4)
    (runStep4 c bucket_name metadata_file_path validator_opts m4).2.1 bucket_name
    (runDir m4) "inapp_doc" ((get_doc_local_file_path m4 validator_opts.docs_path true).getD "")
    (runUav validator_opts m4) (runShouldLatest validator_opts m4)

/-- The manifest upload step of a run. -/
def runStep6 (c : Collab) (bucket_name metadata_file_path : String)
    (validator_opts : ValidatorOptions) (m4 : Metadata) :
    (UploadedFile × UploadedFile) × Store × List String :=
  stepOf (runFS2 c metadata_file_path m4)
    (runStep5 c bucket_name metadata_file_path validator_opts m4).2.1 bucket_name
    (runDir m4) "manifest" (runMofi c metadata_file_path).manifest_file_path
    (runUav validator_opts m4) (runShouldLatest validator_opts m4)

/-- The components-zip sha256 upload step of a run. -/
def runStep7 (c : Collab) (bucket_name metadata_file_path : String)
    (validator_opts : ValidatorOptions) (m4 : Metadata) :
    (UploadedFile × UploadedFile) × Store × List String :=
  stepOf (runFS2 c metadata_file_path m4)
    (runStep6 c bucket_name metadata_file_path validator_opts m4).2.1 bucket_name
    (runDir m4) "components_zip_sha256" (runMofi c metadata_file_path).sha256_file_path
    (runUav validator_opts m4) (runShouldLatest validator_opts m4)

/-- The components-zip upload step of a run. -/
def runStep8 (c : Collab) (bucket_name metadata_file_path : String)
    (validator_opts : ValidatorOptions) (m4 : Metadata) :
    (UploadedFile × UploadedFile) × Store × List String :=
  stepOf (runFS2 c metadata_file_path m4)
    (runStep7 c bucket_name metadata_file_path validator_opts m4).2.1 bucket_name
    (runDir m4) "components_zip" (runMofi c metadata_file_path).zip_file_path
    (runUav validator_opts m4) (runShouldLatest validator_opts m4)

/-- All outcome records of a successful run, in report order. -/
def runFiles (c : Collab) (bucket_name metadata_file_path : String)
    (validator_opts : ValidatorOptions) (m4 : Metadata) : List UploadedFile :=
  [(runStep1 c bucket_name metadata_file_path validator_opts m4).1.1,
   (runStep1 c bucket_name metadata_file_path validator_opts m4).1.2] ++
  (runRC c bucket_name metadata_file_path validator_opts m4).1 ++
  [(runStep3 c bucket_name metadata_file_path validator_opts m4).1.1,
   (runStep3 c bucket_name metadata_file_path validator_opts m4).1.2] ++
  [(runStep4 c bucket_name metadata_file_path validator_opts m4).1.1,
   (runStep4 c bucket_name metadata_file_path validator_opts m4).1.2] ++
  [(runStep5 c bucket_name metadata_file_path validator_opts m4).1.1,
   (runStep5 c bucket_name metadata_file_path validator_opts m4).1.2] ++
  [(runStep6 c bucket_name metadata_file_path validator_opts m4).1.1,
   (runStep6 c bucket_name metadata_file_path validator_opts m4).1.2] ++
  [(runStep7 c bucket_name metadata_file_path validator_opts m4).1.1,
   (runStep7 c bucket_name metadata_file_path validator_opts m4).1.2] ++
  [(runStep8 c bucket_name metadata_file_path validator_opts m4).1.1,
   (runStep8 c bucket_name metadata_file_path validator_opts m4).1.2]

/-- The ordered write log of a successful run. -/
def runWriteLog (c : Collab) (bucket_name metadata_file_path : String)
    (validator_opts : ValidatorOptions) (m4 : Metadata) : List String :=
  (runStep1 c bucket_name metadata_file_path validator_opts m4).2.2 ++
  (runRC c bucket_name metadata_file_path validator_opts m4).2.2 ++
  (runStep3 c bucket_name metadata_file_path validator_opts m4).2.2 ++
  (runStep4 c bucket_name metadata_file_path validator_opts m4).2.2 ++
  (runStep5 c bucket_name metadata_file_path validator_opts m4).2.2 ++
  (runStep6 c bucket_name metadata_file_path validator_opts m4).2.2 ++
  (runStep7 c bucket_name metadata_file_path validator_opts m4).2.2 ++
  (runStep8 c bucket_name metadata_file_path validator_opts m4).2.2

/-- Characterization of a successful orchestrator run (validation, creds and
doc-URL resolution succeed) as a pure function of the collaborators and of
the mutated document. -/
def runModel (c : Collab) (bucket_name metadata_file_path : String)
    (validator_opts : ValidatorOptions) (m4 : Metadata) :
    MetadataUploadInfo × Store × List String :=
  (⟨_any_uploaded (runFiles c bucket_name metadata_file_path validator_opts m4)
      ["latest_metadata", "version_metadata", "version_release_candidate"],
    c.metadataTmpPath,
    runFiles c bucket_name metadata_file_path validator_opts m4⟩,
   (runStep8 c bucket_name metadata_file_path validator_opts m4).2.1,
   runWriteLog c bucket_name metadata_file_path validator_opts m4)

/-- Fixture document: a connector whose documentation URL resolves onto the
docs tree. -/
def mkDoc (rc : Bool) (url : String) : Metadata :=
  { data := { dockerRepository := some "source-foo", dockerImageTag := some "1.0.0",
              documentationUrl := url,
              registryOverrides := [], releases := some { isReleaseCandidate := rc },
              generated := none } }

/-- Fixture filesystem with no files at all. -/
def emptyFS : FS := fun _ => none

/-- Fixture remote store with no objects at all. -/
def emptyStore : Store := fun _ => none

/-- Fixture collaborator bundle: the yaml parse yields `doc`, git lookup is
skipped, every HTTP probe answers with a not-ok response, validation passes,
and credentials are present. -/
def mkCollab (fs : FS) (st : Store) (doc : Metadata) : Collab :=
  { fs := fs, store := st, parse := some doc, gitInfo := none,
    http := fun _ => some false, validateOk := fun _ => true, gcs_creds := some "x",
    zipTmpPath := "tmp/z.zip", sha256TmpPath := "tmp/z.sha256",
    metadataTmpPath := "tmp/meta.yaml" }

/-- Fixture validator options without a prerelease tag. -/
def fixOpts : ValidatorOptions := { docs_path := "docs" }

/-- Fixture document whose documentation URL maps onto the docs tree and which
is not a release candidate. -/
def fixDoc : Metadata := mkDoc false "https://docs.airbyte.com/integrations/sources/foo"

/-- Serialized content of the fixture document after the (no-op) mutation
pipeline of the fixture collaborators. -/
def fixContent : String := serializeMetadata fixDoc

/-- Fixture document marked as a release candidate. -/
def fixDocRC : Metadata := mkDoc true "https://docs.airbyte.com/integrations/sources/foo"

/-- Fixture document whose documentation URL does not match the docs
prefix. -/
def fixDocBadUrl : Metadata := mkDoc false "https://example.com/docs/foo"

/-- Error message modelling the `AttributeError` raised when the orchestrator
passes the `None` returned by `get_doc_local_file_path` to `_file_upload`,
which calls `local_path.exists()` on it. -/
def docNoneError : String := "AttributeError: NoneType object has no attribute exists"

/-- Remote store already holding, at every path the fixture run targets, the
exact hashes the run would upload: the metadata document at both aliases and
the empty components zip and sha256 temporary files at both aliases. -/
def preloadedStore : Store := fun p =>
  if p = "metadata/source-foo/1.0.0/meta.yaml" then some (compute_gcs_md5 fixContent)
  else if p = "metadata/source-foo/latest/meta.yaml" then some (compute_gcs_md5 fixContent)
  else if p = "metadata/source-foo/1.0.0/z.zip" then some (compute_gcs_md5 "")
  else if p = "metadata/source-foo/latest/z.zip" then some (compute_gcs_md5 "")
  else if p = "metadata/source-foo/1.0.0/z.sha256" then some (compute_gcs_md5 "")
  else if p = "metadata/source-foo/latest/z.sha256" then some (compute_gcs_md5 "")
  else none

/-- Fixture document for the SBOM mutation claims: both lookup fields
present. -/
def sbomDocFull : Metadata :=
  { data := { dockerRepository := some "source-foo", dockerImageTag := some "1.0.0" } }

/-- Fixture document for the SBOM mutation claims: `dockerRepository`
missing. -/
def sbomDocNoRepo : Metadata := { data := { dockerImageTag := some "1.0.0" } }

/-- Fixture filesystem holding exactly one file `f` with content `A`. -/
def c5fs : FS := fun p => if p = "f" then some "A" else none

-- ✅ Theorems.  General lemmas first, then one theorem per claim.

@[simp] theorem fsWrite_same (fs : FS) (p c : String) : fsWrite fs p c p = some c := by
  simp [fsWrite]

theorem fsWrite_other (fs : FS) (p c q : String) (h : q ≠ p) : fsWrite fs p c q = fs q := by
  simp [fsWrite, h]

@[simp] theorem storeWrite_same (st : Store) (p h : String) : storeWrite st p h p = some h := by
  simp [storeWrite]

theorem storeWrite_other (st : Store) (p h q : String) (hq : q ≠ p) :
    storeWrite st p h q = st q := by
  simp [storeWrite, hq]

theorem compute_gcs_md5_injective : Function.Injective compute_gcs_md5 := by
  intro a b hab
  have hd : ("md5:" ++ a).data = ("md5:" ++ b).data := congrArg String.data hab
  simp only [String.data_append] at hd
  exact String.ext (List.append_cancel_left hd)

theorem upload_file_if_changed_eq (fs : FS) (st : Store) (bucket bp lp : String)
    (dc : Bool) (cont : String) (hfs : fs lp = some cont) :
    upload_file_if_changed fs st bucket bp lp dc =
      .ok (condStep st bucket bp (compute_gcs_md5 cont)) := by
  simp only [upload_file_if_changed, hfs, condStep]
  split <;> rfl

theorem condStep_store_at (st : Store) (bucket bp hash : String) :
    (condStep st bucket bp hash).2.1 bp = some hash := by
  unfold condStep
  split
  · simp
  · next h => simpa using not_ne_iff.mp h

theorem condStep_writes (st : Store) (bucket bp hash : String) :
    (condStep st bucket bp hash).2.2 ⊆ [bp] := by
  unfold condStep
  split <;> simp

theorem condStep_skip (st : Store) (bucket bp hash : String) (h : st bp = some hash) :
    condStep st bucket bp hash = (⟨false, blobId bucket bp⟩, st, []) := by
  simp [condStep, h]

theorem condStep_write (st : Store) (bucket bp hash : String) (h : st bp ≠ some hash) :
    condStep st bucket bp hash =
      (⟨true, blobId bucket bp⟩, storeWrite st bp hash, [bp]) := by
  simp [condStep, h]

/-- Claim C5: publishing the same unchanged local file a second time to the
same remote path yields `wasWritten=false` and performs zero writes, because
after the first publish the remotely stored hash equals the local content
hash; modifying the local content before the second publish yields
`wasWritten=true` (and a write to the remote path). -/
theorem C5_conditional_uploader_idempotent (fs fs' : FS) (st : Store)
    (bucket bp lp : String) (dc dc' dc'' : Bool) (cont cont' : String)
    (r1 : MaybeUpload) (st1 : Store) (w1 : List String)
    (hfs : fs lp = some cont)
    (h1 : upload_file_if_changed fs st bucket bp lp dc = .ok (r1, st1, w1)) :
    upload_file_if_changed fs st1 bucket bp lp dc' =
      .ok (⟨false, blobId bucket bp⟩, st1, []) ∧
    (∀ hfs' : fs' lp = some cont', cont' ≠ cont →
      upload_file_if_changed fs' st1 bucket bp lp dc'' =
        .ok (⟨true, blobId bucket bp⟩, storeWrite st1 bp (compute_gcs_md5 cont'), [bp])) := by
  rw [upload_file_if_changed_eq fs st bucket bp lp dc cont hfs] at h1
  have hst1 : st1 bp = some (compute_gcs_md5 cont) := by
    have := condStep_store_at st bucket bp (compute_gcs_md5 cont)
    rw [show (condStep st bucket bp (compute_gcs_md5 cont)).2.1 = st1 by
      injection h1 with h1'
      rw [h1']] at this
    exact this
  constructor
  · rw [upload_file_if_changed_eq fs st1 bucket bp lp dc' cont hfs,
      condStep_skip st1 bucket bp _ hst1]
  · intro hfs' hne
    have hmd5 : st1 bp ≠ some (compute_gcs_md5 cont') := by
      rw [hst1]
      intro hcontra
      exact hne (compute_gcs_md5_injective (Option.some_injective _ hcontra.symm))
    rw [upload_file_if_changed_eq fs' st1 bucket bp lp dc'' cont' hfs',
      condStep_write st1 bucket bp _ hmd5]

/-- Witness for C5 at a concrete input: file `f` holds `A`, the remote store
is empty; after a first publish, re-publishing is skipped. -/
theorem C5_witness :
    c5fs "f" = some "A" ∧
    upload_file_if_changed c5fs emptyStore "b" "bp" "f" false =
      .ok (⟨true, blobId "b" "bp"⟩, storeWrite emptyStore "bp" (compute_gcs_md5 "A"), ["bp"]) ∧
    upload_file_if_changed c5fs (storeWrite emptyStore "bp" (compute_gcs_md5 "A"))
        "b" "bp" "f" false =
      .ok (⟨false, blobId "b" "bp"⟩, storeWrite emptyStore "bp" (compute_gcs_md5 "A"), []) :=
  ⟨rfl, rfl,
    (C5_conditional_uploader_idempotent c5fs c5fs emptyStore "b" "bp" "f"
      false false false "A" "A" ⟨true, blobId "b" "bp"⟩
      (storeWrite emptyStore "bp" (compute_gcs_md5 "A")) ["bp"] rfl (by rfl)).1⟩

/-- Claim C7: with a prerelease tag supplied, the prerelease-override mutation
replaces the document's top-level image-tag field and the image-tag field of
every per-registry override (where that field is present) with the tag, and
leaves every other field of the document unchanged; with no prerelease tag it
is the identity. -/
theorem C7_prerelease_overrides (m : Metadata) (docs : String) (tag : String) :
    _apply_prerelease_overrides m { docs_path := docs, prerelease_tag := none } = m ∧
    (_apply_prerelease_overrides m { docs_path := docs, prerelease_tag := some tag }).data.dockerImageTag
        = some tag ∧
    (_apply_prerelease_overrides m { docs_path := docs, prerelease_tag := some tag }).data.registryOverrides
        = m.data.registryOverrides.map (fun kv =>
            (kv.1, { kv.2 with dockerImageTag := kv.2.dockerImageTag.map fun _ => tag })) ∧
    (_apply_prerelease_overrides m { docs_path := docs, prerelease_tag := some tag }).data.dockerRepository
        = m.data.dockerRepository ∧
    (_apply_prerelease_overrides m { docs_path := docs, prerelease_tag := some tag }).data.documentationUrl
        = m.data.documentationUrl ∧
    (_apply_prerelease_overrides m { docs_path := docs, prerelease_tag := some tag }).data.releases
        = m.data.releases ∧
    (_apply_prerelease_overrides m { docs_path := docs, prerelease_tag := some tag }).data.generated
        = m.data.generated := by
  refine ⟨rfl, rfl, ?_, rfl, rfl, rfl, rfl⟩
  simp only [_apply_prerelease_overrides]
  refine List.map_congr_left fun kv _ => ?_
  obtain ⟨k, o⟩ := kv
  obtain ⟨t⟩ := o
  cases t <;> simp

/-- Claim C3 counterexample: the SBOM URL lookup is not non-fatal in every
failure case.  On a document carrying both `dockerRepository` and
`dockerImageTag`, a network failure of the existence probe (the HTTP
collaborator raising, modelled by `none`) propagates out of the mutation:
the result is `none` (a raised exception), not the unchanged document. -/
theorem C3_counterexample :
    _apply_sbom_url_to_metadata_file (fun _ => none) sbomDocFull = none := rfl

/-- Claim C3 as amended: a missing `dockerRepository` or `dockerImageTag`
field is non-fatal (the `KeyError` is caught and the document is returned
unchanged), and a probe response that is not ok silently skips attaching
`generated.sbomUrl`; an ok probe response attaches the deterministic URL and
changes nothing else; but an exception raised by the probe itself (network
failure) propagates out of the mutation. -/
theorem C3_sbom_amended (http : String → Option Bool) (m : Metadata) :
    (m.data.dockerRepository = none ∨ m.data.dockerImageTag = none →
      _apply_sbom_url_to_metadata_file http m = some m) ∧
    (∀ repo tag, m.data.dockerRepository = some repo → m.data.dockerImageTag = some tag →
      http (sbomUrlFor repo tag) = some false →
      _apply_sbom_url_to_metadata_file http m = some m) ∧
    (∀ repo tag, m.data.dockerRepository = some repo → m.data.dockerImageTag = some tag →
      http (sbomUrlFor repo tag) = some true →
      _apply_sbom_url_to_metadata_file http m =
        some (setGeneratedSbomUrl m (sbomUrlFor repo tag))) ∧
    (∀ repo tag, m.data.dockerRepository = some repo → m.data.dockerImageTag = some tag →
      http (sbomUrlFor repo tag) = none →
      _apply_sbom_url_to_metadata_file http m = none) := by
  refine ⟨?_, ?_, ?_, ?_⟩
  · intro hmiss
    unfold _apply_sbom_url_to_metadata_file
    rcases hmiss with h | h
    · rw [h]
    · rcases hr : m.data.dockerRepository with _ | repo <;> simp only [h, hr]
  · intro repo tag h1 h2 h3
    simp [_apply_sbom_url_to_metadata_file, h1, h2, h3]
  · intro repo tag h1 h2 h3
    simp [_apply_sbom_url_to_metadata_file, h1, h2, h3]
  · intro repo tag h1 h2 h3
    simp [_apply_sbom_url_to_metadata_file, h1, h2, h3]

/-- Witness for C3's amended theorem at concrete inputs: a document missing
`dockerRepository` passes through unchanged, and a not-ok probe response
leaves a complete document unchanged. -/
theorem C3_sbom_amended_witness :
    (sbomDocNoRepo.data.dockerRepository = none ∨ sbomDocNoRepo.data.dockerImageTag = none) ∧
    _apply_sbom_url_to_metadata_file (fun _ => some false) sbomDocNoRepo = some sbomDocNoRepo ∧
    _apply_sbom_url_to_metadata_file (fun _ => some false) sbomDocFull = some sbomDocFull :=
  ⟨Or.inl rfl,
    (C3_sbom_amended (fun _ => some false) sbomDocNoRepo).1 (Or.inl rfl),
    (C3_sbom_amended (fun _ => some false) sbomDocFull).2.1 "source-foo" "1.0.0" rfl rfl rfl⟩

theorem upload_file_if_changed_eq' (fs : FS) (lp cont : String) (hfs : fs lp = some cont) :
    ∀ (st : Store) (bucket bp : String) (dc : Bool),
      upload_file_if_changed fs st bucket bp lp dc =
        .ok (condStep st bucket bp (compute_gcs_md5 cont)) :=
  fun st bucket bp dc => upload_file_if_changed_eq fs st bucket bp lp dc cont hfs

theorem file_upload_missing (fs : FS) (st : Store) (bucket dir k lp : String)
    (v : Option String) (lat : Bool) (dc : Bool) (hfs : fs lp = none) :
    _file_upload fs st bucket dir k lp v lat true dc =
      .ok ((⟨"versioned_" ++ k, false, none⟩, ⟨"latest_" ++ k, false, none⟩), st, []) := by
  simp only [_file_upload, hfs, if_pos]

theorem file_upload_missing_noskip (fs : FS) (st : Store) (bucket dir k lp : String)
    (v : Option String) (lat : Bool) (dc : Bool) (hfs : fs lp = none) :
    _file_upload fs st bucket dir k lp v lat false dc =
      .error ("Expected to find file at " ++ lp ++ ", but none was found.") := by
  simp only [_file_upload, hfs, Bool.false_eq_true, if_false]

theorem file_upload_skip_eq (fs : FS) (st : Store) (bucket dir k lp : String)
    (v : Option String) (lat : Bool) (dc : Bool) :
    _file_upload fs st bucket dir k lp v lat true dc =
      .ok (stepOf fs st bucket dir k lp v lat) := by
  unfold _file_upload stepOf
  cases hfs : fs lp with
  | none => simp
  | some cont =>
      simp only [upload_file_if_changed_eq' fs lp cont hfs, fileUploadModel, mkPath]
      by_cases hv : truthy v = true <;> by_cases hl : lat = true <;>
        simp [hv, hl]

theorem docPathFromUrl_isSome_iff (url d : String) :
    (docPathFromUrl url d true).isSome = (docPathFromUrl url d false).isSome := by
  unfold docPathFromUrl
  split <;> rfl

/-- Master characterization: when the yaml parse and mutation pipeline
produce `m4`, validation passes, credentials are present and nonempty, and
the documentation URL resolves, the orchestrator run succeeds and equals the
pure `runModel`. -/
theorem run_eq_model (c : Collab) (bucket mpath : String) (opts : ValidatorOptions)
    (m4 : Metadata) (s : String)
    (hm4 : mutatedDoc c mpath opts = some m4)
    (hval : c.validateOk m4 = true)
    (hcreds : c.gcs_creds = some s) (hs : s ≠ "")
    (hdoc : (docPathFromUrl m4.data.documentationUrl opts.docs_path false).isSome = true) :
    upload_metadata_to_gcs c bucket mpath opts = .ok (runModel c bucket mpath opts m4) := by
  obtain ⟨m0, hparse, hpipe⟩ : ∃ m0, c.parse = some m0 ∧
      _apply_modifications_pipeline c m0 opts
        (maybe_create_components_zip c.fs c.zipTmpPath c.sha256TmpPath
          (pathParent mpath)).1.sha256 = some m4 := by
    unfold mutatedDoc at hm4
    cases hp : c.parse with
    | none => rw [hp] at hm4; exact absurd hm4 (by simp)
    | some m0 => rw [hp] at hm4; exact ⟨m0, rfl, hm4⟩
  obtain ⟨docP, hdocP⟩ := Option.isSome_iff_exists.mp hdoc
  obtain ⟨inappP, hinappP⟩ := Option.isSome_iff_exists.mp
    (by rw [docPathFromUrl_isSome_iff]; exact hdoc)
  have hvalne : (c.validateOk m4 = false) = False := by simp [hval]
  simp only [upload_metadata_to_gcs, runModel, runFiles, runWriteLog, runStep1, runRC,
    runStep3, runStep4, runStep5, runStep6, runStep7, runStep8, runFS2, runMofi, isRC,
    runShouldRC, runShouldLatest, runDir, runUav, iconLocalPath,
    hparse, hpipe, hval, hcreds, hs,
    get_doc_local_file_path, hdocP, hinappP, file_upload_skip_eq, hvalne,
    Bool.true_eq_false, if_false, ite_false, Option.getD_some]
  by_cases hrc : ((match m4.data.releases with
      | none => false
      | some r => r.isReleaseCandidate) && !opts.prerelease_tag.isSome) = true <;>
    simp only [hrc, if_true, ite_true, if_false, ite_false, Bool.not_eq_true] <;> rfl

theorem stepOf_ids (fs : FS) (st : Store) (bucket dir k lp : String)
    (v : Option String) (lat : Bool) :
    ((stepOf fs st bucket dir k lp v lat).1.1).id = "versioned_" ++ k ∧
    ((stepOf fs st bucket dir k lp v lat).1.2).id = "latest_" ++ k := by
  unfold stepOf fileUploadModel condStep
  cases fs lp <;> by_cases hv : truthy v = true <;> by_cases hl : lat = true <;>
    simp [hv, hl]

theorem stepOf_missing (fs : FS) (st : Store) (bucket dir k lp : String)
    (v : Option String) (lat : Bool) (hfs : fs lp = none) :
    stepOf fs st bucket dir k lp v lat =
      ((⟨"versioned_" ++ k, false, none⟩, ⟨"latest_" ++ k, false, none⟩), st, []) := by
  simp [stepOf, hfs]

theorem stepOf_noflags (fs : FS) (st : Store) (bucket dir k lp : String)
    (v : Option String) (lat : Bool) (hv : truthy v = false) (hl : lat = false) :
    stepOf fs st bucket dir k lp v lat =
      ((⟨"versioned_" ++ k, false, none⟩, ⟨"latest_" ++ k, false, none⟩), st, []) := by
  unfold stepOf fileUploadModel
  cases fs lp <;> simp [hv, hl]

theorem stepOf_writes_mem (fs : FS) (st : Store) (bucket dir k lp : String)
    (v : Option String) (lat : Bool) (p : String)
    (hp : p ∈ (stepOf fs st bucket dir k lp v lat).2.2) :
    (truthy v = true ∧ p = mkPath dir (v.getD "") (pathName lp)) ∨
    (lat = true ∧ p = mkPath dir LATEST_GCS_FOLDER_NAME (pathName lp)) := by
  unfold stepOf fileUploadModel at hp
  cases hfs : fs lp <;> rw [hfs] at hp
  · simp at hp
  · by_cases hv : truthy v = true <;> by_cases hl : lat = true <;>
      simp only [hv, hl, if_true, if_false, ite_true, ite_false] at hp
    · rcases List.mem_append.mp hp with hp2 | hp2
      · exact Or.inl ⟨hv, List.mem_singleton.mp (condStep_writes _ _ _ _ hp2)⟩
      · exact Or.inr ⟨hl, List.mem_singleton.mp (condStep_writes _ _ _ _ hp2)⟩
    · rcases List.mem_append.mp hp with hp2 | hp2
      · exact Or.inl ⟨hv, List.mem_singleton.mp (condStep_writes _ _ _ _ hp2)⟩
      · simp at hp2
    · rcases List.mem_append.mp hp with hp2 | hp2
      · simp at hp2
      · exact Or.inr ⟨hl, List.mem_singleton.mp (condStep_writes _ _ _ _ hp2)⟩
    · simp at hp

theorem stepOf_versioned_default (fs : FS) (st : Store) (bucket dir k lp : String)
    (v : Option String) (lat : Bool) (hv : truthy v = false) :
    (stepOf fs st bucket dir k lp v lat).1.1 = ⟨"versioned_" ++ k, false, none⟩ := by
  unfold stepOf fileUploadModel
  cases fs lp <;> simp [hv]

theorem stepOf_latest_default (fs : FS) (st : Store) (bucket dir k lp : String)
    (v : Option String) (lat : Bool) (hl : lat = false) :
    (stepOf fs st bucket dir k lp v lat).1.2 = ⟨"latest_" ++ k, false, none⟩ := by
  unfold stepOf fileUploadModel
  cases fs lp <;> simp [hl]

theorem stepOf_versioned_attempted (fs : FS) (st : Store) (bucket dir k lp : String)
    (v : Option String) (lat : Bool) (cont : String)
    (hfs : fs lp = some cont) (hv : truthy v = true) :
    (stepOf fs st bucket dir k lp v lat).1.1 =
      ⟨"versioned_" ++ k, (stepOf fs st bucket dir k lp v lat).1.1.uploaded,
        some (blobId bucket (mkPath dir (v.getD "") (pathName lp)))⟩ := by
  unfold stepOf fileUploadModel condStep
  rw [hfs]
  by_cases hl : lat = true <;> simp only [hv, hl, if_true, if_false, ite_true, ite_false] <;>
    (repeat' split) <;> simp

theorem stepOf_latest_attempted (fs : FS) (st : Store) (bucket dir k lp : String)
    (v : Option String) (lat : Bool) (cont : String)
    (hfs : fs lp = some cont) (hl : lat = true) :
    (stepOf fs st bucket dir k lp v lat).1.2 =
      ⟨"latest_" ++ k, (stepOf fs st bucket dir k lp v lat).1.2.uploaded,
        some (blobId bucket (mkPath dir LATEST_GCS_FOLDER_NAME (pathName lp)))⟩ := by
  unfold stepOf fileUploadModel condStep
  rw [hfs]
  by_cases hv : truthy v = true <;> simp only [hv, hl, if_true, if_false, ite_true, ite_false] <;>
    (repeat' split) <;> simp

theorem append_slash_inj : ∀ (a : List Char), '/' ∉ a → ∀ (b : List Char), '/' ∉ b →
    ∀ (x y : List Char), a ++ '/' :: x = b ++ '/' :: y → a = b ∧ x = y := by
  intro a
  induction a with
  | nil =>
      intro _ b hb x y h
      cases b with
      | nil => simpa using h
      | cons c bs =>
          simp only [List.nil_append, List.cons_append, List.cons.injEq] at h
          obtain ⟨hc, -⟩ := h
          subst hc
          exact absurd (List.mem_cons_self _ _) hb
  | cons c as ih =>
      intro ha b hb x y h
      cases b with
      | nil =>
          simp only [List.cons_append, List.nil_append, List.cons.injEq] at h
          obtain ⟨hc, -⟩ := h
          subst hc
          exact absurd (List.mem_cons_self _ _) ha
      | cons d bs =>
          simp only [List.cons_append, List.cons.injEq] at h
          obtain ⟨rfl, h2⟩ := h
          have := ih (fun hmem => ha (List.mem_cons_of_mem _ hmem)) bs
            (fun hmem => hb (List.mem_cons_of_mem _ hmem)) x y h2
          exact ⟨by rw [this.1], this.2⟩

theorem slash_data : "/".data = ['/'] := rfl

theorem mkPath_folder_eq {dir f1 f2 n1 n2 : String}
    (h1 : '/' ∉ f1.data) (h2 : '/' ∉ f2.data)
    (he : mkPath dir f1 n1 = mkPath dir f2 n2) : f1 = f2 := by
  have hd := congrArg String.data he
  simp only [mkPath, String.data_append, slash_data, List.append_assoc,
    List.singleton_append] at hd
  have h3 := List.append_cancel_left hd
  injection h3 with h4 h5
  exact String.ext (append_slash_inj f1.data h1 f2.data h2 n1.data n2.data h5).1

theorem mkPath_ne_of_folder_ne {dir f1 f2 n1 n2 : String}
    (h1 : '/' ∉ f1.data) (h2 : '/' ∉ f2.data) (hne : f1 ≠ f2) :
    mkPath dir f1 n1 ≠ mkPath dir f2 n2 :=
  fun he => hne (mkPath_folder_eq h1 h2 he)

theorem file_upload_exists_eq (fs : FS) (st : Store) (bucket dir k lp : String)
    (v : Option String) (lat : Bool) (skip dc : Bool) (cont : String)
    (hfs : fs lp = some cont) :
    _file_upload fs st bucket dir k lp v lat skip dc =
      .ok (stepOf fs st bucket dir k lp v lat) := by
  unfold _file_upload stepOf
  rw [hfs]
  simp only [upload_file_if_changed_eq' fs lp cont hfs, fileUploadModel, mkPath]
  by_cases hv : truthy v = true <;> by_cases hl : lat = true <;>
    simp [hv, hl]

/-- Claim C8: with no version alias and `publishAsLatest=true`, every write of
the Dual-Target Publisher happens at the latest path, and no version-pinned
path (any folder other than `latest`) is ever written; symmetrically with a
version alias and `publishAsLatest=false`, writes happen only at the
version-pinned path and never at the latest path; with neither flag set, the
call performs no writes at all. -/
theorem C8_dual_target_alias_independence (fs : FS) (st : Store)
    (bucket dir k lp : String) (dc : Bool) :
    (∀ r st' w, _file_upload fs st bucket dir k lp none true true dc = .ok (r, st', w) →
      w ⊆ [mkPath dir LATEST_GCS_FOLDER_NAME (pathName lp)] ∧
      (∀ folder fname, '/' ∉ folder.data → folder ≠ LATEST_GCS_FOLDER_NAME →
        mkPath dir folder fname ∉ w)) ∧
    (∀ ver r st' w, _file_upload fs st bucket dir k lp (some ver) false true dc = .ok (r, st', w) →
      w ⊆ [mkPath dir ver (pathName lp)] ∧
      ('/' ∉ ver.data → ver ≠ LATEST_GCS_FOLDER_NAME →
        ∀ fname, mkPath dir LATEST_GCS_FOLDER_NAME fname ∉ w)) ∧
    (∀ r st' w, _file_upload fs st bucket dir k lp none false true dc = .ok (r, st', w) →
      w = []) := by
  refine ⟨?_, ?_, ?_⟩
  · intro r st' w hok
    rw [file_upload_skip_eq] at hok
    injection hok with he
    have hw : w = (stepOf fs st bucket dir k lp none true).2.2 := by rw [he]
    constructor
    · intro p hp
      rw [hw] at hp
      rcases stepOf_writes_mem _ _ _ _ _ _ _ _ p hp with ⟨hv, _⟩ | ⟨_, hp2⟩
      · exact absurd hv (by decide)
      · simp [hp2]
    · intro folder fname hsl hne hmem
      rw [hw] at hmem
      rcases stepOf_writes_mem _ _ _ _ _ _ _ _ _ hmem with ⟨hv, _⟩ | ⟨_, hp2⟩
      · exact absurd hv (by decide)
      · exact hne (mkPath_folder_eq hsl (by decide) hp2)
  · intro ver r st' w hok
    rw [file_upload_skip_eq] at hok
    injection hok with he
    have hw : w = (stepOf fs st bucket dir k lp (some ver) false).2.2 := by rw [he]
    constructor
    · intro p hp
      rw [hw] at hp
      rcases stepOf_writes_mem _ _ _ _ _ _ _ _ p hp with ⟨_, hp2⟩ | ⟨hl, _⟩
      · simp [hp2]
      · exact absurd hl (by decide)
    · intro hsl hne fname hmem
      rw [hw] at hmem
      rcases stepOf_writes_mem _ _ _ _ _ _ _ _ _ hmem with ⟨_, hp2⟩ | ⟨hl, _⟩
      · exact hne (mkPath_folder_eq (by decide) hsl hp2).symm
      · exact absurd hl (by decide)
  · intro r st' w hok
    rw [file_upload_skip_eq] at hok
    injection hok with he
    have hw : w = (stepOf fs st bucket dir k lp none false).2.2 := by rw [he]
    rw [stepOf_noflags fs st bucket dir k lp none false (by decide) rfl] at hw
    exact hw

/-- Witness for C8 at a concrete input: publishing file `f` (content `A`) as
latest only, against an empty store, writes exactly the latest path, which is
not any version-pinned path. -/
theorem C8_witness :
    (stepOf c5fs emptyStore "b" "dir" "icon" "f" none true).2.2 ⊆
      [mkPath "dir" LATEST_GCS_FOLDER_NAME (pathName "f")] ∧
    mkPath "dir" "1.0.0" "f" ∉ (stepOf c5fs emptyStore "b" "dir" "icon" "f" none true).2.2 := by
  have h := (C8_dual_target_alias_independence c5fs emptyStore "b" "dir" "icon" "f" false).1
    (stepOf c5fs emptyStore "b" "dir" "icon" "f" none true).1
    (stepOf c5fs emptyStore "b" "dir" "icon" "f" none true).2.1
    (stepOf c5fs emptyStore "b" "dir" "icon" "f" none true).2.2
    (by rw [file_upload_skip_eq])
  exact ⟨h.1, h.2 "1.0.0" "f" (by decide) (by decide)⟩

theorem maybe_create_fs_other (fs : FS) (z s wd q : String) (h1 : q ≠ z) (h2 : q ≠ s) :
    (maybe_create_components_zip fs z s wd).2 q = fs q := by
  unfold maybe_create_components_zip
  cases hc : fs (wd ++ "/" ++ COMPONENTS_PY_FILE_NAME) <;> simp [hc, fsWrite, h1, h2]

theorem runFS2_mtp (c : Collab) (mp : String) (m4 : Metadata) :
    runFS2 c mp m4 c.metadataTmpPath = some (serializeMetadata m4) := by
  simp [runFS2]

theorem runFS2_other (c : Collab) (mp : String) (m4 : Metadata) (q : String)
    (h1 : q ≠ c.zipTmpPath) (h2 : q ≠ c.sha256TmpPath) (h3 : q ≠ c.metadataTmpPath) :
    runFS2 c mp m4 q = c.fs q := by
  unfold runFS2
  rw [fsWrite_other _ _ _ _ h3, maybe_create_fs_other _ _ _ _ _ h1 h2]

/-- Claim C9: a Dual-Target Publisher call on a missing local path returns the
two not-written outcomes without an object id when `skipIfMissing` is set, and
fails with a missing-file error otherwise; in particular, since the
orchestrator's icon step sets `skipIfMissing`, a missing icon file never
fails an orchestrator run — the run still succeeds and the icon outcomes are
recorded as not written with no object id. -/
theorem C9_missing_file_handling :
    (∀ (fs : FS) (st : Store) (bucket dir k lp : String) (v : Option String) (lat dc : Bool),
      fs lp = none →
      _file_upload fs st bucket dir k lp v lat true dc =
        .ok ((⟨"versioned_" ++ k, false, none⟩, ⟨"latest_" ++ k, false, none⟩), st, [])) ∧
    (∀ (fs : FS) (st : Store) (bucket dir k lp : String) (v : Option String) (lat dc : Bool),
      fs lp = none →
      _file_upload fs st bucket dir k lp v lat false dc =
        .error ("Expected to find file at " ++ lp ++ ", but none was found.")) ∧
    (∀ (c : Collab) (bucket mpath : String) (opts : ValidatorOptions) (m4 : Metadata)
        (s : String),
      mutatedDoc c mpath opts = some m4 →
      c.validateOk m4 = true →
      c.gcs_creds = some s → s ≠ "" →
      (docPathFromUrl m4.data.documentationUrl opts.docs_path false).isSome = true →
      c.fs (iconLocalPath c) = none →
      iconLocalPath c ≠ c.zipTmpPath →
      iconLocalPath c ≠ c.sha256TmpPath →
      iconLocalPath c ≠ c.metadataTmpPath →
      upload_metadata_to_gcs c bucket mpath opts = .ok (runModel c bucket mpath opts m4) ∧
      (⟨"versioned_icon", false, none⟩ : UploadedFile) ∈
        (runModel c bucket mpath opts m4).1.uploaded_files ∧
      (⟨"latest_icon", false, none⟩ : UploadedFile) ∈
        (runModel c bucket mpath opts m4).1.uploaded_files) := by
  refine ⟨?_, ?_, ?_⟩
  · intro fs st bucket dir k lp v lat dc hfs
    exact file_upload_missing fs st bucket dir k lp v lat dc hfs
  · intro fs st bucket dir k lp v lat dc hfs
    exact file_upload_missing_noskip fs st bucket dir k lp v lat dc hfs
  · intro c bucket mpath opts m4 s hm4 hval hcreds hs hdoc hicon h1 h2 h3
    refine ⟨run_eq_model c bucket mpath opts m4 s hm4 hval hcreds hs hdoc, ?_, ?_⟩
    all_goals
      have hicon2 : runFS2 c mpath m4 (iconLocalPath c) = none := by
        rw [runFS2_other c mpath m4 _ h1 h2 h3]; exact hicon
    · have h31 : (runStep3 c bucket mpath opts m4).1.1 = ⟨"versioned_icon", false, none⟩ := by
        rw [runStep3, stepOf_missing _ _ _ _ _ _ _ _ hicon2]
        rfl
      have hm : (runStep3 c bucket mpath opts m4).1.1 ∈
          (runModel c bucket mpath opts m4).1.uploaded_files := by
        simp [runModel, runFiles]
      rw [h31] at hm
      exact hm
    · have h32 : (runStep3 c bucket mpath opts m4).1.2 = ⟨"latest_icon", false, none⟩ := by
        rw [runStep3, stepOf_missing _ _ _ _ _ _ _ _ hicon2]
        rfl
      have hm : (runStep3 c bucket mpath opts m4).1.2 ∈
          (runModel c bucket mpath opts m4).1.uploaded_files := by
        simp [runModel, runFiles]
      rw [h32] at hm
      exact hm

/-- Witness for C9 at concrete inputs: a missing file is skipped (skip set)
or raises (skip unset), and the fixture run with no icon file succeeds with
both icon outcomes not written. -/
theorem C9_witness :
    _file_upload emptyFS emptyStore "b" "dir" "icon" "missing" none true true false =
      .ok ((⟨"versioned_icon", false, none⟩, ⟨"latest_icon", false, none⟩), emptyStore, []) ∧
    _file_upload emptyFS emptyStore "b" "dir" "icon" "missing" none true false false =
      .error ("Expected to find file at missing, but none was found.") ∧
    upload_metadata_to_gcs (mkCollab emptyFS emptyStore fixDoc) "bkt" "conn/metadata.yaml"
        fixOpts =
      .ok (runModel (mkCollab emptyFS emptyStore fixDoc) "bkt" "conn/metadata.yaml"
        fixOpts fixDoc) ∧
    (⟨"versioned_icon", false, none⟩ : UploadedFile) ∈
      (runModel (mkCollab emptyFS emptyStore fixDoc) "bkt" "conn/metadata.yaml"
        fixOpts fixDoc).1.uploaded_files := by
  have hrun := C9_missing_file_handling.2.2 (mkCollab emptyFS emptyStore fixDoc) "bkt"
    "conn/metadata.yaml" fixOpts fixDoc "x" (by rfl) (by rfl) (by rfl) (by decide)
    (by rfl) (by rfl) (by decide) (by decide) (by decide)
  exact ⟨C9_missing_file_handling.1 emptyFS emptyStore "b" "dir" "icon" "missing"
      none true false rfl,
    C9_missing_file_handling.2.1 emptyFS emptyStore "b" "dir" "icon" "missing"
      none true false rfl,
    hrun.1, hrun.2.1⟩

theorem stepOf_id_fst (fs : FS) (st : Store) (bucket dir k lp : String)
    (v : Option String) (lat : Bool) :
    ((stepOf fs st bucket dir k lp v lat).1.1).id = "versioned_" ++ k :=
  (stepOf_ids fs st bucket dir k lp v lat).1

theorem stepOf_id_snd (fs : FS) (st : Store) (bucket dir k lp : String)
    (v : Option String) (lat : Bool) :
    ((stepOf fs st bucket dir k lp v lat).1.2).id = "latest_" ++ k :=
  (stepOf_ids fs st bucket dir k lp v lat).2

theorem runFiles_map_id (c : Collab) (bucket mp : String) (opts : ValidatorOptions)
    (m4 : Metadata) :
    (runFiles c bucket mp opts m4).map (fun f => f.id) =
      ["versioned_metadata", "latest_metadata"] ++
      (if runShouldRC opts m4 then
        ["versioned_release_candidate", "latest_release_candidate"] else []) ++
      ["versioned_icon", "latest_icon", "versioned_doc", "latest_doc",
       "versioned_inapp_doc", "latest_inapp_doc", "versioned_manifest", "latest_manifest",
       "versioned_components_zip_sha256", "latest_components_zip_sha256",
       "versioned_components_zip", "latest_components_zip"] := by
  unfold runFiles
  by_cases hrc : runShouldRC opts m4 = true <;>
    simp [hrc, runRC, runStep1, runStep3, runStep4, runStep5, runStep6, runStep7, runStep8,
      stepOf_id_fst, stepOf_id_snd]

/-- Claim C10: every Dual-Target Publisher invocation that returns yields
exactly two outcome records, with identity keys `versioned_<key>` and
`latest_<key>`; an unattempted destination (flag unset, or file missing with
skip set) always carries `wasWritten=false` and no object id; and a
successful orchestrator run's report contains both records of every artifact
kind invoked, in invocation order. -/
theorem C10_outcome_pair_invariant :
    (∀ (fs : FS) (st : Store) (bucket dir k lp : String) (v : Option String)
        (lat skip dc : Bool) (a b : UploadedFile) (st' : Store) (w : List String),
      _file_upload fs st bucket dir k lp v lat skip dc = .ok ((a, b), st', w) →
      a.id = "versioned_" ++ k ∧ b.id = "latest_" ++ k ∧
      (truthy v = false → a = ⟨"versioned_" ++ k, false, none⟩) ∧
      (lat = false → b = ⟨"latest_" ++ k, false, none⟩) ∧
      (fs lp = none → a = ⟨"versioned_" ++ k, false, none⟩ ∧
        b = ⟨"latest_" ++ k, false, none⟩)) ∧
    (∀ (c : Collab) (bucket mpath : String) (opts : ValidatorOptions) (m4 : Metadata)
        (s : String),
      mutatedDoc c mpath opts = some m4 →
      c.validateOk m4 = true →
      c.gcs_creds = some s → s ≠ "" →
      (docPathFromUrl m4.data.documentationUrl opts.docs_path false).isSome = true →
      upload_metadata_to_gcs c bucket mpath opts = .ok (runModel c bucket mpath opts m4) ∧
      (runModel c bucket mpath opts m4).1.uploaded_files.map (fun f => f.id) =
        ["versioned_metadata", "latest_metadata"] ++
        (if runShouldRC opts m4 then
          ["versioned_release_candidate", "latest_release_candidate"] else []) ++
        ["versioned_icon", "latest_icon", "versioned_doc", "latest_doc",
         "versioned_inapp_doc", "latest_inapp_doc", "versioned_manifest", "latest_manifest",
         "versioned_components_zip_sha256", "latest_components_zip_sha256",
         "versioned_components_zip", "latest_components_zip"]) := by
  constructor
  · intro fs st bucket dir k lp v lat skip dc a b st' w hok
    cases hfs : fs lp with
    | none =>
        cases skip with
        | true =>
            rw [file_upload_missing fs st bucket dir k lp v lat dc hfs] at hok
            injection hok with he
            have ha := congrArg
              (fun x : (UploadedFile × UploadedFile) × Store × List String => x.1.1) he
            have hb := congrArg
              (fun x : (UploadedFile × UploadedFile) × Store × List String => x.1.2) he
            simp only at ha hb
            rw [← ha, ← hb]
            exact ⟨rfl, rfl, fun _ => rfl, fun _ => rfl, fun _ => ⟨rfl, rfl⟩⟩
        | false =>
            rw [file_upload_missing_noskip fs st bucket dir k lp v lat dc hfs] at hok
            cases hok
    | some cont =>
        rw [file_upload_exists_eq fs st bucket dir k lp v lat skip dc cont hfs] at hok
        injection hok with he
        have ha : a = (stepOf fs st bucket dir k lp v lat).1.1 := by rw [he]
        have hb : b = (stepOf fs st bucket dir k lp v lat).1.2 := by rw [he]
        refine ⟨ha ▸ stepOf_id_fst fs st bucket dir k lp v lat,
          hb ▸ stepOf_id_snd fs st bucket dir k lp v lat, ?_, ?_, ?_⟩
        · intro hv
          rw [ha, stepOf_versioned_default fs st bucket dir k lp v lat hv]
        · intro hl
          rw [hb, stepOf_latest_default fs st bucket dir k lp v lat hl]
        · intro hmiss
          exact absurd hmiss (by simp)
  · intro c bucket mpath opts m4 s hm4 hval hcreds hs hdoc
    refine ⟨run_eq_model c bucket mpath opts m4 s hm4 hval hcreds hs hdoc, ?_⟩
    exact runFiles_map_id c bucket mpath opts m4

/-- Witness for C10 at concrete inputs: a publisher call with the latest flag
only, on an existing file, still returns the `versioned_icon` record as a
default; and the fixture run's report lists both records of every artifact
kind, with no release-candidate records (the fixture is not a release
candidate). -/
theorem C10_witness :
    ((stepOf c5fs emptyStore "b" "dir" "icon" "f" none true).1.1).id = "versioned_icon" ∧
    (stepOf c5fs emptyStore "b" "dir" "icon" "f" none true).1.1 =
      ⟨"versioned_icon", false, none⟩ ∧
    (runModel (mkCollab emptyFS emptyStore fixDoc) "bkt" "conn/metadata.yaml"
        fixOpts fixDoc).1.uploaded_files.map (fun f => f.id) =
      ["versioned_metadata", "latest_metadata", "versioned_icon", "latest_icon",
       "versioned_doc", "latest_doc", "versioned_inapp_doc", "latest_inapp_doc",
       "versioned_manifest", "latest_manifest",
       "versioned_components_zip_sha256", "latest_components_zip_sha256",
       "versioned_components_zip", "latest_components_zip"] := by
  have h1 := (C10_outcome_pair_invariant.1 c5fs emptyStore "b" "dir" "icon" "f" none true
    true false (stepOf c5fs emptyStore "b" "dir" "icon" "f" none true).1.1
    (stepOf c5fs emptyStore "b" "dir" "icon" "f" none true).1.2
    (stepOf c5fs emptyStore "b" "dir" "icon" "f" none true).2.1
    (stepOf c5fs emptyStore "b" "dir" "icon" "f" none true).2.2
    (by rw [file_upload_skip_eq]))
  have h2 := (C10_outcome_pair_invariant.2 (mkCollab emptyFS emptyStore fixDoc) "bkt"
    "conn/metadata.yaml" fixOpts fixDoc "x" (by rfl) (by rfl) (by rfl) (by decide)
    (by rfl)).2
  refine ⟨h1.1, h1.2.2.1 (by decide), ?_⟩
  rw [h2]
  decide

theorem runModel_files (c : Collab) (bucket mp : String) (opts : ValidatorOptions)
    (m4 : Metadata) :
    (runModel c bucket mp opts m4).1.uploaded_files = runFiles c bucket mp opts m4 := rfl

theorem runModel_writes (c : Collab) (bucket mp : String) (opts : ValidatorOptions)
    (m4 : Metadata) :
    (runModel c bucket mp opts m4).2.2 = runWriteLog c bucket mp opts m4 := rfl

theorem runShouldRC_of_no_prerelease (opts : ValidatorOptions) (m4 : Metadata)
    (hpre : opts.prerelease_tag = none) : runShouldRC opts m4 = isRC m4 := by
  simp [runShouldRC, hpre]

theorem runShouldLatest_of_no_prerelease (opts : ValidatorOptions) (m4 : Metadata)
    (hpre : opts.prerelease_tag = none) : runShouldLatest opts m4 = !isRC m4 := by
  simp [runShouldLatest, hpre]

theorem runUav_of_no_prerelease (opts : ValidatorOptions) (m4 : Metadata)
    (hpre : opts.prerelease_tag = none) : runUav opts m4 = m4.data.dockerImageTag := by
  simp [runUav, hpre]

theorem runRC_sub (c : Collab) (bucket mp : String) (opts : ValidatorOptions)
    (m4 : Metadata) :
    ∀ x ∈ (runRC c bucket mp opts m4).1, x ∈ runFiles c bucket mp opts m4 := by
  intro x hx
  unfold runFiles
  simp only [List.mem_append]
  tauto

theorem runWriteLog_mem (c : Collab) (bucket mp : String) (opts : ValidatorOptions)
    (m4 : Metadata) (p : String) (hp : p ∈ runWriteLog c bucket mp opts m4) :
    (∃ fname, truthy (runUav opts m4) = true ∧
      p = mkPath (runDir m4) ((runUav opts m4).getD "") fname) ∨
    (∃ fname, runShouldLatest opts m4 = true ∧
      p = mkPath (runDir m4) LATEST_GCS_FOLDER_NAME fname) ∨
    (∃ fname, runShouldRC opts m4 = true ∧
      p = mkPath (runDir m4) RELEASE_CANDIDATE_GCS_FOLDER_NAME fname) := by
  unfold runWriteLog at hp
  simp only [List.mem_append] at hp
  rcases hp with ((((((hp | hp) | hp) | hp) | hp) | hp) | hp) | hp
  · rcases stepOf_writes_mem _ _ _ _ _ _ _ _ p (by simpa [runStep1] using hp) with
      ⟨hv, hpe⟩ | ⟨hl, hpe⟩
    · exact Or.inl ⟨_, hv, hpe⟩
    · exact Or.inr (Or.inl ⟨_, hl, hpe⟩)
  · by_cases hrc : runShouldRC opts m4 = true
    · rw [runRC, if_pos hrc] at hp
      rcases stepOf_writes_mem _ _ _ _ _ _ _ _ p hp with ⟨hv, hpe⟩ | ⟨hl, hpe⟩
      · exact Or.inr (Or.inr ⟨_, hrc, by simpa using hpe⟩)
      · cases hl
    · rw [runRC, if_neg hrc] at hp
      simp at hp
  · rcases stepOf_writes_mem _ _ _ _ _ _ _ _ p (by simpa [runStep3] using hp) with
      ⟨hv, hpe⟩ | ⟨hl, hpe⟩
    · cases hv
    · exact Or.inr (Or.inl ⟨_, hl, hpe⟩)
  · rcases stepOf_writes_mem _ _ _ _ _ _ _ _ p (by simpa [runStep4] using hp) with
      ⟨hv, hpe⟩ | ⟨hl, hpe⟩
    · exact Or.inl ⟨_, hv, hpe⟩
    · exact Or.inr (Or.inl ⟨_, hl, hpe⟩)
  · rcases stepOf_writes_mem _ _ _ _ _ _ _ _ p (by simpa [runStep5] using hp) with
      ⟨hv, hpe⟩ | ⟨hl, hpe⟩
    · exact Or.inl ⟨_, hv, hpe⟩
    · exact Or.inr (Or.inl ⟨_, hl, hpe⟩)
  · rcases stepOf_writes_mem _ _ _ _ _ _ _ _ p (by simpa [runStep6] using hp) with
      ⟨hv, hpe⟩ | ⟨hl, hpe⟩
    · exact Or.inl ⟨_, hv, hpe⟩
    · exact Or.inr (Or.inl ⟨_, hl, hpe⟩)
  · rcases stepOf_writes_mem _ _ _ _ _ _ _ _ p (by simpa [runStep7] using hp) with
      ⟨hv, hpe⟩ | ⟨hl, hpe⟩
    · exact Or.inl ⟨_, hv, hpe⟩
    · exact Or.inr (Or.inl ⟨_, hl, hpe⟩)
  · rcases stepOf_writes_mem _ _ _ _ _ _ _ _ p (by simpa [runStep8] using hp) with
      ⟨hv, hpe⟩ | ⟨hl, hpe⟩
    · exact Or.inl ⟨_, hv, hpe⟩
    · exact Or.inr (Or.inl ⟨_, hl, hpe⟩)

/-- Claim C6: with no prerelease tag, a document marked as a release
candidate publishes the metadata to the release-candidate path (the report
carries a `versioned_release_candidate` outcome whose object id points at
that path) and not to the latest path (the `latest_metadata` outcome is a
default not-attempted record and no write touches any latest path); a
document not marked as a release candidate publishes the metadata to the
latest path and not to the release-candidate path (no release-candidate
outcome exists and no write touches the release-candidate path). -/
theorem C6_release_candidate_routing (c : Collab) (bucket mpath : String)
    (opts : ValidatorOptions) (m4 : Metadata) (s tag : String)
    (hm4 : mutatedDoc c mpath opts = some m4)
    (hval : c.validateOk m4 = true)
    (hcreds : c.gcs_creds = some s) (hs : s ≠ "")
    (hdoc : (docPathFromUrl m4.data.documentationUrl opts.docs_path false).isSome = true)
    (hpre : opts.prerelease_tag = none)
    (htag : m4.data.dockerImageTag = some tag)
    (hslash : '/' ∉ tag.data)
    (hlat : tag ≠ LATEST_GCS_FOLDER_NAME)
    (hrcf : tag ≠ RELEASE_CANDIDATE_GCS_FOLDER_NAME) :
    (isRC m4 = true →
      upload_metadata_to_gcs c bucket mpath opts = .ok (runModel c bucket mpath opts m4) ∧
      (runRC c bucket mpath opts m4).1.map (fun f => (f.id, f.blob_id)) =
        [("versioned_release_candidate",
          some (blobId bucket (mkPath (runDir m4) RELEASE_CANDIDATE_GCS_FOLDER_NAME
            (pathName c.metadataTmpPath)))),
         ("latest_release_candidate", none)] ∧
      (∀ x ∈ (runRC c bucket mpath opts m4).1,
        x ∈ (runModel c bucket mpath opts m4).1.uploaded_files) ∧
      (runStep1 c bucket mpath opts m4).1.2 = ⟨"latest_metadata", false, none⟩ ∧
      (runStep1 c bucket mpath opts m4).1.2 ∈
        (runModel c bucket mpath opts m4).1.uploaded_files ∧
      (∀ fname, mkPath (runDir m4) LATEST_GCS_FOLDER_NAME fname ∉
        (runModel c bucket mpath opts m4).2.2)) ∧
    (isRC m4 = false →
      upload_metadata_to_gcs c bucket mpath opts = .ok (runModel c bucket mpath opts m4) ∧
      (runStep1 c bucket mpath opts m4).1.2.id = "latest_metadata" ∧
      (runStep1 c bucket mpath opts m4).1.2.blob_id =
        some (blobId bucket (mkPath (runDir m4) LATEST_GCS_FOLDER_NAME
          (pathName c.metadataTmpPath))) ∧
      (runStep1 c bucket mpath opts m4).1.2 ∈
        (runModel c bucket mpath opts m4).1.uploaded_files ∧
      (∀ f ∈ (runModel c bucket mpath opts m4).1.uploaded_files,
        f.id ≠ "versioned_release_candidate" ∧ f.id ≠ "latest_release_candidate") ∧
      (∀ fname, mkPath (runDir m4) RELEASE_CANDIDATE_GCS_FOLDER_NAME fname ∉
        (runModel c bucket mpath opts m4).2.2)) := by
  have hm : runFS2 c mpath m4 c.metadataTmpPath = some (serializeMetadata m4) :=
    runFS2_mtp c mpath m4
  have huav : runUav opts m4 = some tag := by
    rw [runUav_of_no_prerelease opts m4 hpre, htag]
  constructor
  · intro hrc
    have hrc2 : runShouldRC opts m4 = true := by
      rw [runShouldRC_of_no_prerelease opts m4 hpre, hrc]
    have hlat2 : runShouldLatest opts m4 = false := by
      rw [runShouldLatest_of_no_prerelease opts m4 hpre, hrc]
      rfl
    refine ⟨run_eq_model c bucket mpath opts m4 s hm4 hval hcreds hs hdoc, ?_, ?_, ?_, ?_, ?_⟩
    · rw [runRC, if_pos hrc2]
      have h1 := stepOf_versioned_attempted (runFS2 c mpath m4)
        (runStep1 c bucket mpath opts m4).2.1 bucket (runDir m4) "release_candidate"
        c.metadataTmpPath (some RELEASE_CANDIDATE_GCS_FOLDER_NAME) false
        (serializeMetadata m4) hm (by decide)
      have h1b := congrArg UploadedFile.blob_id h1
      simp only at h1b
      have h2 := stepOf_latest_default (runFS2 c mpath m4)
        (runStep1 c bucket mpath opts m4).2.1 bucket (runDir m4) "release_candidate"
        c.metadataTmpPath (some RELEASE_CANDIDATE_GCS_FOLDER_NAME) false rfl
      simp only [List.map_cons, List.map_nil, stepOf_id_fst, h1b, h2]
      rfl
    · exact fun x hx => runRC_sub c bucket mpath opts m4 x hx
    · rw [runStep1, stepOf_latest_default _ _ _ _ _ _ _ _ hlat2]
      rfl
    · rw [runModel_files]
      unfold runFiles
      simp only [List.mem_append]
      tauto
    · intro fname hmem
      rw [runModel_writes] at hmem
      rcases runWriteLog_mem c bucket mpath opts m4 _ hmem with
        ⟨f2, _, hpe⟩ | ⟨f2, hl2, _⟩ | ⟨f2, _, hpe⟩
      · rw [huav] at hpe
        exact hlat (mkPath_folder_eq (by decide) hslash hpe).symm
      · rw [hlat2] at hl2
        cases hl2
      · exact absurd (mkPath_folder_eq (by decide) (by decide) hpe) (by decide)
  · intro hrc
    have hrc2 : runShouldRC opts m4 = false := by
      rw [runShouldRC_of_no_prerelease opts m4 hpre, hrc]
    have hlat2 : runShouldLatest opts m4 = true := by
      rw [runShouldLatest_of_no_prerelease opts m4 hpre, hrc]
      rfl
    have hstep := stepOf_latest_attempted (runFS2 c mpath m4) c.store bucket (runDir m4)
      "metadata" c.metadataTmpPath (runUav opts m4) (runShouldLatest opts m4)
      (serializeMetadata m4) hm hlat2
    refine ⟨run_eq_model c bucket mpath opts m4 s hm4 hval hcreds hs hdoc, ?_, ?_, ?_, ?_, ?_⟩
    · rw [runStep1, hstep]
      rfl
    · rw [runStep1, hstep]
    · rw [runModel_files]
      unfold runFiles
      simp only [List.mem_append]
      tauto
    · intro f hf
      have hid := List.mem_map_of_mem (fun f => f.id) hf
      rw [runModel_files, runFiles_map_id, hrc2] at hid
      have hidlist : f.id ∈ (["versioned_metadata", "latest_metadata", "versioned_icon",
          "latest_icon", "versioned_doc", "latest_doc", "versioned_inapp_doc",
          "latest_inapp_doc", "versioned_manifest", "latest_manifest",
          "versioned_components_zip_sha256", "latest_components_zip_sha256",
          "versioned_components_zip", "latest_components_zip"] : List String) := by
        simpa using hid
      constructor <;> (intro hbad; rw [hbad] at hidlist; revert hidlist; decide)
    · intro fname hmem
      rw [runModel_writes] at hmem
      rcases runWriteLog_mem c bucket mpath opts m4 _ hmem with
        ⟨f2, _, hpe⟩ | ⟨f2, _, hpe⟩ | ⟨f2, hrc3, _⟩
      · rw [huav] at hpe
        exact hrcf (mkPath_folder_eq (by decide) hslash hpe).symm
      · exact absurd (mkPath_folder_eq (by decide) (by decide) hpe) (by decide)
      · rw [hrc2] at hrc3
        cases hrc3

/-- Witness for C6 at a concrete input: the release-candidate fixture run
targets the release-candidate path, leaves the latest-metadata outcome
unattempted, and writes nothing under the latest alias. -/
theorem C6_witness :
    (runRC (mkCollab emptyFS emptyStore fixDocRC) "bkt" "conn/metadata.yaml" fixOpts
        fixDocRC).1.map (fun f => (f.id, f.blob_id)) =
      [("versioned_release_candidate",
        some (blobId "bkt" (mkPath (runDir fixDocRC) RELEASE_CANDIDATE_GCS_FOLDER_NAME
          (pathName "tmp/meta.yaml")))),
       ("latest_release_candidate", none)] ∧
    (runStep1 (mkCollab emptyFS emptyStore fixDocRC) "bkt" "conn/metadata.yaml" fixOpts
        fixDocRC).1.2 = ⟨"latest_metadata", false, none⟩ ∧
    mkPath (runDir fixDocRC) LATEST_GCS_FOLDER_NAME "meta.yaml" ∉
      (runModel (mkCollab emptyFS emptyStore fixDocRC) "bkt" "conn/metadata.yaml" fixOpts
        fixDocRC).2.2 := by
  have h := (C6_release_candidate_routing (mkCollab emptyFS emptyStore fixDocRC) "bkt"
    "conn/metadata.yaml" fixOpts fixDocRC "x" "1.0.0" (by rfl) (by rfl) (by rfl)
    (by decide) (by rfl) (by rfl) (by rfl) (by decide) (by decide) (by decide)).1 (by rfl)
  exact ⟨h.2.1, h.2.2.2.1, h.2.2.2.2.2 "meta.yaml"⟩

/-- Claim C4 counterexample: the doc publish steps do not tolerate a
documentation URL that fails to map onto the local docs tree.  On a validated
document whose URL does not match `https://docs.airbyte.com/`,
`get_doc_local_file_path` returns `None` and the doc step's
`local_path.exists()` raises — the run aborts instead of returning
not-written outcomes. -/
theorem C4_counterexample :
    runInfo (mkCollab emptyFS emptyStore fixDocBadUrl) "bkt" "conn/metadata.yaml" fixOpts =
      .error docNoneError := by
  rfl

/-- Claim C4 as amended: when the documentation URL resolves onto the docs
tree, the doc and inapp_doc steps tolerate a missing local doc file — the run
succeeds and both steps report not-written outcomes without object ids; but
when the URL does not resolve (no `https://docs.airbyte.com/` match), the run
aborts with the `AttributeError` raised on the `None` path. -/
theorem C4_doc_tolerance :
    (∀ (c : Collab) (bucket mpath : String) (opts : ValidatorOptions) (m4 : Metadata)
        (s : String),
      mutatedDoc c mpath opts = some m4 →
      c.validateOk m4 = true →
      c.gcs_creds = some s → s ≠ "" →
      docPathFromUrl m4.data.documentationUrl opts.docs_path false = none →
      upload_metadata_to_gcs c bucket mpath opts = .error docNoneError) ∧
    (∀ (c : Collab) (bucket mpath : String) (opts : ValidatorOptions) (m4 : Metadata)
        (s docP inappP : String),
      mutatedDoc c mpath opts = some m4 →
      c.validateOk m4 = true →
      c.gcs_creds = some s → s ≠ "" →
      docPathFromUrl m4.data.documentationUrl opts.docs_path false = some docP →
      docPathFromUrl m4.data.documentationUrl opts.docs_path true = some inappP →
      c.fs docP = none → docP ≠ c.zipTmpPath → docP ≠ c.sha256TmpPath →
      docP ≠ c.metadataTmpPath →
      c.fs inappP = none → inappP ≠ c.zipTmpPath → inappP ≠ c.sha256TmpPath →
      inappP ≠ c.metadataTmpPath →
      upload_metadata_to_gcs c bucket mpath opts = .ok (runModel c bucket mpath opts m4) ∧
      (runStep4 c bucket mpath opts m4).1.1 = ⟨"versioned_doc", false, none⟩ ∧
      (runStep4 c bucket mpath opts m4).1.2 = ⟨"latest_doc", false, none⟩ ∧
      (runStep5 c bucket mpath opts m4).1.1 = ⟨"versioned_inapp_doc", false, none⟩ ∧
      (runStep5 c bucket mpath opts m4).1.2 = ⟨"latest_inapp_doc", false, none⟩ ∧
      (runStep4 c bucket mpath opts m4).1.1 ∈
        (runModel c bucket mpath opts m4).1.uploaded_files ∧
      (runStep5 c bucket mpath opts m4).1.1 ∈
        (runModel c bucket mpath opts m4).1.uploaded_files) := by
  constructor
  · intro c bucket mpath opts m4 s hm4 hval hcreds hs hdocnone
    obtain ⟨m0, hparse, hpipe⟩ : ∃ m0, c.parse = some m0 ∧
        _apply_modifications_pipeline c m0 opts
          (maybe_create_components_zip c.fs c.zipTmpPath c.sha256TmpPath
            (pathParent mpath)).1.sha256 = some m4 := by
      unfold mutatedDoc at hm4
      cases hp : c.parse with
      | none => rw [hp] at hm4; exact absurd hm4 (by simp)
      | some m0 => rw [hp] at hm4; exact ⟨m0, rfl, hm4⟩
    have hvalne : (c.validateOk m4 = false) = False := by simp [hval]
    simp only [upload_metadata_to_gcs, hparse, hpipe, hval, hcreds, hs,
      get_doc_local_file_path, hdocnone, file_upload_skip_eq, hvalne,
      Bool.true_eq_false, if_false, ite_false]
    by_cases hrc : ((match m4.data.releases with
        | none => false
        | some r => r.isReleaseCandidate) && !opts.prerelease_tag.isSome) = true <;>
      simp only [hrc, if_true, ite_true, if_false, ite_false, Bool.not_eq_true] <;> rfl
  · intro c bucket mpath opts m4 s docP inappP hm4 hval hcreds hs hdocP hinappP
      hdmiss hd1 hd2 hd3 himiss hi1 hi2 hi3
    have hdoc : (docPathFromUrl m4.data.documentationUrl opts.docs_path false).isSome
        = true := by rw [hdocP]; rfl
    have hdoc2 : runFS2 c mpath m4 docP = none := by
      rw [runFS2_other c mpath m4 _ hd1 hd2 hd3]; exact hdmiss
    have hinapp2 : runFS2 c mpath m4 inappP = none := by
      rw [runFS2_other c mpath m4 _ hi1 hi2 hi3]; exact himiss
    have hdocP' : (get_doc_local_file_path m4 opts.docs_path false).getD "" = docP := by
      rw [get_doc_local_file_path, hdocP]; rfl
    have hinappP' : (get_doc_local_file_path m4 opts.docs_path true).getD "" = inappP := by
      rw [get_doc_local_file_path, hinappP]; rfl
    have h4 : ∀ pr : (UploadedFile × UploadedFile) × Store × List String,
        runStep4 c bucket mpath opts m4 = pr →
        pr = ((⟨"versioned_doc", false, none⟩, ⟨"latest_doc", false, none⟩),
          (runStep3 c bucket mpath opts m4).2.1, []) := by
      intro pr hpr
      rw [← hpr, runStep4, hdocP', stepOf_missing _ _ _ _ _ _ _ _ hdoc2]
      rfl
    have h4' := h4 _ rfl
    have h5 : runStep5 c bucket mpath opts m4 =
        ((⟨"versioned_inapp_doc", false, none⟩, ⟨"latest_inapp_doc", false, none⟩),
          (runStep4 c bucket mpath opts m4).2.1, []) := by
      rw [runStep5, hinappP', stepOf_missing _ _ _ _ _ _ _ _ hinapp2]
      rfl
    refine ⟨run_eq_model c bucket mpath opts m4 s hm4 hval hcreds hs hdoc,
      ?_, ?_, ?_, ?_, ?_, ?_⟩
    · rw [h4']
    · rw [h4']
    · rw [h5]
    · rw [h5]
    · rw [runModel_files]
      unfold runFiles
      simp only [List.mem_append]
      tauto
    · rw [runModel_files]
      unfold runFiles
      simp only [List.mem_append]
      tauto

/-- Witness for C4's amended theorem at concrete inputs: the fixture with a
resolving documentation URL and no local doc files succeeds with not-written
doc outcomes, and the fixture with a non-resolving URL aborts. -/
theorem C4_witness :
    upload_metadata_to_gcs (mkCollab emptyFS emptyStore fixDoc) "bkt" "conn/metadata.yaml"
        fixOpts =
      .ok (runModel (mkCollab emptyFS emptyStore fixDoc) "bkt" "conn/metadata.yaml"
        fixOpts fixDoc) ∧
    (runStep4 (mkCollab emptyFS emptyStore fixDoc) "bkt" "conn/metadata.yaml" fixOpts
        fixDoc).1.1 = ⟨"versioned_doc", false, none⟩ ∧
    upload_metadata_to_gcs (mkCollab emptyFS emptyStore fixDocBadUrl) "bkt"
        "conn/metadata.yaml" fixOpts = .error docNoneError := by
  have h := C4_doc_tolerance.2 (mkCollab emptyFS emptyStore fixDoc) "bkt"
    "conn/metadata.yaml" fixOpts fixDoc "x" "docs/integrations/sources/foo.md"
    "docs/integrations/sources/foo.inapp.md" (by rfl) (by rfl) (by rfl) (by decide)
    (by rfl) (by rfl) (by rfl) (by decide) (by decide) (by decide) (by rfl) (by decide)
    (by decide) (by decide)
  have hbad := C4_doc_tolerance.1 (mkCollab emptyFS emptyStore fixDocBadUrl) "bkt"
    "conn/metadata.yaml" fixOpts fixDocBadUrl "x" (by rfl) (by rfl) (by rfl) (by decide)
    (by rfl)
  exact ⟨h.1, h.2.1, hbad⟩

/-- Claim C2 counterexample: in a run with no `components.py` in the working
directory and an empty remote store, the `components_zip` artifact is NOT
treated as a missing optional file: its latest-alias outcome reports
`wasWritten=true` with a remote object id, because the zip temporary file is
created (empty) unconditionally and is therefore uploaded. -/
theorem C2_counterexample :
    (runInfo (mkCollab emptyFS emptyStore fixDoc) "bkt" "conn/metadata.yaml" fixOpts).map
      (fun i => i.uploaded_files.contains
        ⟨"latest_components_zip", true,
          some (blobId "bkt" "metadata/source-foo/latest/z.zip")⟩) = .ok true := by
  rfl

/-- Claim C2 as amended: when no `components.py` exists, the recorded sha256
is absent, but the zip and sha256 temporary files are still created on disk
(empty), so `skipIfMissing` never applies to them: the `components_zip`
outcomes are produced by the ordinary conditional upload of the empty zip
file — `wasWritten=true` with an object id against a remote that differs,
and `wasWritten=false` (still with an object id) against a remote already
holding the empty file's hash. -/
theorem C2_components_zip_amended :
    (∀ (fs : FS) (z s wd : String), fs (wd ++ "/" ++ COMPONENTS_PY_FILE_NAME) = none →
      (maybe_create_components_zip fs z s wd).1.sha256 = none ∧
      (maybe_create_components_zip fs z s wd).2 z = some "" ∧
      (maybe_create_components_zip fs z s wd).2 s = some "") ∧
    (runStep8 (mkCollab emptyFS emptyStore fixDoc) "bkt" "conn/metadata.yaml" fixOpts
        fixDoc).1.2 =
      ⟨"latest_components_zip", true,
        some (blobId "bkt" "metadata/source-foo/latest/z.zip")⟩ ∧
    (runStep8 (mkCollab emptyFS preloadedStore fixDoc) "bkt" "conn/metadata.yaml" fixOpts
        fixDoc).1.2 =
      ⟨"latest_components_zip", false,
        some (blobId "bkt" "metadata/source-foo/latest/z.zip")⟩ := by
  refine ⟨?_, by rfl, by rfl⟩
  intro fs z s wd hc
  refine ⟨?_, ?_, ?_⟩ <;> simp [maybe_create_components_zip, hc, fsWrite]

/-- Witness for C2's amended theorem at a concrete input: with no
`components.py` under `conn/`, the zip creation records no sha256 and leaves
both (empty) temporary files on disk. -/
theorem C2_witness :
    (maybe_create_components_zip emptyFS "tmp/z.zip" "tmp/z.sha256" "conn").1.sha256
        = none ∧
    (maybe_create_components_zip emptyFS "tmp/z.zip" "tmp/z.sha256" "conn").2 "tmp/z.zip"
        = some "" ∧
    (maybe_create_components_zip emptyFS "tmp/z.zip" "tmp/z.sha256" "conn").2
        "tmp/z.sha256" = some "" :=
  C2_components_zip_amended.1 emptyFS "tmp/z.zip" "tmp/z.sha256" "conn" rfl

/-- Claim C1, evaluated at a failing input: in a run against a remote store
that already holds every targeted object with a matching hash, no outcome has
`wasWritten=true`, yet the report's `metadata_uploaded` flag is `true` — the
claimed "iff at least one metadata-class outcome was written" is violated.
The source's `_any_uploaded` never inspects the `uploaded` flag, and two of
the three keys it is given (`version_metadata`, `version_release_candidate`)
can never equal a generated outcome key (`versioned_*`/`latest_*`), so the
flag is decided solely by the always-present `latest_metadata` record. -/
theorem C1_metadata_uploaded_flag_eval :
    (runInfo (mkCollab emptyFS preloadedStore fixDoc) "bkt" "conn/metadata.yaml"
        fixOpts).map
      (fun i => (i.metadata_uploaded,
        i.uploaded_files.all fun f => !f.uploaded,
        i.uploaded_files.all fun f =>
          decide (f.id ≠ "version_metadata" ∧ f.id ≠ "version_release_candidate"))) =
      .ok (true, true, true) := by
  rfl

end GcsUpload
